import Mathlib

/-!
# Verification of the honeybee `Face` component (`honeybee/face.py`)

This file gives a shallow embedding of the honeybee-core `Face` data model and
of the sub-face editing operations of `honeybee/face.py`, together with
theorems settling the specification claims about them.

Modelling conventions:

* All numbers are rationals (`ℚ`).  The Python floats of the source are exact
  here; numeric tolerance comparisons are embedded literally.
* All sub-face geometry of a Face is coplanar with the Face, so polygon data is
  kept in the 2D coordinates of the Face's reference plane (the source projects
  into this plane with `xyz_to_xy` before every 2D operation).  The 3D plane
  normal is kept separately because `add_aperture`/`add_door` compare normals.
* Operations of the external `ladybug_geometry` library (polygon booleans,
  gap-crossing merge, grid subdivision, colinear-vertex removal, rectangle
  detection, overlap tests) are collaborators, not code of this repository:
  they appear as explicit function parameters, bundled in `GeoLib`/`FixLib`.
  Quantities the source derives arithmetically from vertex data (area, bounding
  box, centers, centroids, bounding rectangles) are computed concretely.
* Python methods that can raise are embedded as `Except String` values.
  `Face.set_adjacency` mutates before it can raise, so its embedding returns
  the mutated pair of faces alongside the `Except` result.
-/

/-- A 2D point in the reference plane of a Face. -/
structure Pt2 where
  x : ℚ
  y : ℚ
deriving DecidableEq, Repr

/-- A 3D vector (used only for plane normals). -/
structure Vec3 where
  x : ℚ
  y : ℚ
  z : ℚ
deriving DecidableEq, Repr

/-- Dot product of two 3D vectors; `angle(n1, n2) > pi/2` in the source is
exactly `dot3 n1 n2 < 0`. -/
def dot3 (a b : Vec3) : ℚ :=
  a.x * b.x + a.y * b.y + a.z * b.z

/-- Negation of a 3D vector (`Face3D.flip` reverses the normal). -/
def negVec (a : Vec3) : Vec3 :=
  ⟨-a.x, -a.y, -a.z⟩

/-- A ladybug-geometry `Face3D`: a planar boundary (in reference-plane
coordinates) with optional holes and a plane normal. -/
structure Face3D where
  boundary : List Pt2
  holes : List (List Pt2)
  normal : Vec3
deriving DecidableEq, Repr

/-- Twice the signed (shoelace) area of a closed polygon. -/
def shoelace : List Pt2 → ℚ
  | [] => 0
  | p :: ps => go p (p :: ps)
where
  go (first : Pt2) : List Pt2 → ℚ
    | [] => 0
    | [q] => q.x * first.y - first.x * q.y
    | q :: r :: rest => (q.x * r.y - r.x * q.y) + go first (r :: rest)

/-- Unsigned area of a polygon given by its vertex list. -/
def polyArea (pts : List Pt2) : ℚ :=
  |shoelace pts| / 2

/-- Area of a `Face3D`: boundary area minus hole areas (as in ladybug). -/
def Face3D.area (g : Face3D) : ℚ :=
  polyArea g.boundary - (g.holes.map polyArea).sum

/-- Minimum corner of the bounding box of a vertex list. -/
def bboxMin : List Pt2 → Pt2
  | [] => ⟨0, 0⟩
  | p :: ps => ps.foldl (fun m q => ⟨min m.x q.x, min m.y q.y⟩) p

/-- Maximum corner of the bounding box of a vertex list. -/
def bboxMax : List Pt2 → Pt2
  | [] => ⟨0, 0⟩
  | p :: ps => ps.foldl (fun m q => ⟨max m.x q.x, max m.y q.y⟩) p

/-- `Face3D.center` of ladybug: the center of the bounding rectangle around
the geometry (not the area centroid). -/
def center2 (g : Face3D) : Pt2 :=
  let mn := bboxMin g.boundary
  let mx := bboxMax g.boundary
  ⟨(mn.x + mx.x) / 2, (mn.y + mx.y) / 2⟩

/-- Area centroid of a polygon (the spec's word "centroid"). -/
def centroid2 (g : Face3D) : Pt2 :=
  let a := shoelace g.boundary
  if a = 0 then center2 g else
    ⟨momX g.boundary / (3 * a), momY g.boundary / (3 * a)⟩
where
  momX : List Pt2 → ℚ
    | [] => 0
    | p :: ps => goX p (p :: ps)
  goX (first : Pt2) : List Pt2 → ℚ
    | [] => 0
    | [q] => (q.x + first.x) * (q.x * first.y - first.x * q.y)
    | q :: r :: rest => (q.x + r.x) * (q.x * r.y - r.x * q.y) + goX first (r :: rest)
  momY : List Pt2 → ℚ
    | [] => 0
    | p :: ps => goY p (p :: ps)
  goY (first : Pt2) : List Pt2 → ℚ
    | [] => 0
    | [q] => (q.y + first.y) * (q.x * first.y - first.x * q.y)
    | q :: r :: rest => (q.y + r.y) * (q.x * r.y - r.x * q.y) + goY first (r :: rest)

/-- Squared distance between two 2D points. -/
def dist2 (p q : Pt2) : ℚ :=
  (p.x - q.x) ^ 2 + (p.y - q.y) ^ 2

/-- `Point3D.distance_to_point(other) <= tolerance` for coplanar points,
avoiding square roots (valid for non-negative tolerances). -/
def withinDist (p q : Pt2) (tol : ℚ) : Bool :=
  dist2 p q ≤ tol * tol

/-- Ladybug `Point3D.is_equivalent(other, tolerance)`: per-coordinate
comparison within the tolerance. -/
def ptEquiv (p q : Pt2) (tol : ℚ) : Bool :=
  |p.x - q.x| ≤ tol && |p.y - q.y| ≤ tol

/-- `Polygon2D.is_point_inside_bound_rect`: membership in the bounding
rectangle of the polygon. -/
def insideBoundRect (g : Face3D) (p : Pt2) : Bool :=
  let mn := bboxMin g.boundary
  let mx := bboxMax g.boundary
  mn.x ≤ p.x && p.x ≤ mx.x && mn.y ≤ p.y && p.y ≤ mx.y

/-- The bounding rectangle around a geometry, as built by the source from
`Polygon2D.from_rectangle(g_min, Vector2D(0, 1), base, hgt)`
(`face.py` lines 768-773). -/
def boundRectOf (g : Face3D) : Face3D :=
  let mn := bboxMin g.boundary
  let mx := bboxMax g.boundary
  { boundary := [mn, ⟨mx.x, mn.y⟩, mx, ⟨mn.x, mx.y⟩], holes := [], normal := g.normal }

/-- `Face3D.flip`: the same region with the reversed plane normal.  (The
vertex-order reversal of the source leaves area, bounding box and centers
unchanged, so only the normal is tracked.) -/
def Face3D.flip (g : Face3D) : Face3D :=
  { g with normal := negVec g.normal }

/-- Honeybee boundary conditions (`honeybee/boundarycondition.py` collaborator,
modelled as the closed tagged union the spec describes: Outdoors, Ground,
Adiabatic, Surface carrying the linked identifiers). -/
inductive BoundaryCondition where
  | outdoors
  | ground
  | adiabatic
  | surface (bcObjects : List String)
deriving DecidableEq, Repr

/-- Whether a boundary condition is one of `(Outdoors, Surface)`, the pair
admitted by the `boundary_condition` setter for faces with sub-faces. -/
def bcAllowsSubFaces : BoundaryCondition → Bool
  | .outdoors => true
  | .surface _ => true
  | _ => false

/-- Honeybee face types (`honeybee/facetype.py` collaborator). -/
inductive FaceTypeT where
  | wall
  | floor
  | roofCeiling
  | airBoundary
deriving DecidableEq, Repr

/-- Whether a sub-face object is an Aperture or a Door (`isinstance` checks of
the source). -/
inductive SubFaceKind where
  | aperture
  | door
deriving DecidableEq, Repr

/-- An Aperture or Door object.  `parent` is the non-owning back-reference to
the parent Face (`_parent` in the source), recorded by identifier.
`isOperable` is meaningful for Apertures only. -/
structure SubFace where
  identifier : String
  displayName : String
  geometry : Face3D
  isOperable : Bool
  bc : BoundaryCondition
  parent : Option String
  kind : SubFaceKind
deriving DecidableEq, Repr

/-- The honeybee `Face`: geometry, type tag, boundary condition, sub-face
lists, the cached punched geometry (`_punched_geometry`) and the parent room
back-reference. -/
structure Face where
  identifier : String
  displayName : String
  geometry : Face3D
  ftype : FaceTypeT
  bc : BoundaryCondition
  apertures : List SubFace
  doors : List SubFace
  punched : Option Face3D
  parentRoom : Option String
deriving DecidableEq, Repr

/-- Modelled from the spec: the `Aperture(identifier, geometry)` constructor
lives in `aperture.py`, a sibling entity outside the verified sources.  A
fresh vertical sub-face defaults to an Outdoors boundary condition, is not
operable, has no parent, and its display name defaults to its identifier
(spec sections 3 and 6). -/
def freshAperture (id : String) (g : Face3D) (operable : Bool := false) : SubFace :=
  { identifier := id, displayName := id, geometry := g, isOperable := operable,
    bc := .outdoors, parent := none, kind := .aperture }

/-- `Face.remove_apertures` (`face.py` lines 479-484): every aperture's parent
reference is cleared, the aperture list is emptied and the punched-geometry
cache is reset.  Returns the face together with the detached aperture objects
(the caller-visible mutated Python objects). -/
def removeApertures (f : Face) : Face × List SubFace :=
  ({ f with apertures := [], punched := none },
   f.apertures.map (fun a => { a with parent := none }))

/-- `Face.remove_doors` (`face.py` lines 486-491), embedded exactly as
written: the parent-clearing loop iterates over `self._apertures` (not the
doors), so the aperture objects - which stay in the face's aperture list -
get their parent cleared while the removed door objects keep theirs.  The
door list is emptied and the cache is reset. -/
def removeDoors (f : Face) : Face × List SubFace :=
  ({ f with apertures := f.apertures.map (fun a => { a with parent := none }),
            doors := [], punched := none },
   f.doors)

/-- `Face.remove_sub_faces` (`face.py` lines 474-477): `remove_apertures`
followed by `remove_doors`.  Returns the face and the detached aperture and
door objects. -/
def removeSubFaces (f : Face) : Face × List SubFace × List SubFace :=
  let (f1, aps) := removeApertures f
  let (f2, drs) := removeDoors f1
  (f2, aps, drs)

/-- `Face._acceptable_sub_face_check` (`face.py` lines 2158-2165): sub-faces
may only be added when the boundary condition is Outdoors and the face type is
not AirBoundary. -/
def acceptableSubFaceCheck (f : Face) : Except String Unit :=
  if f.bc ≠ BoundaryCondition.outdoors then
    .error "cannot be added to Face with this boundary condition"
  else if f.ftype = FaceTypeT.airBoundary then
    .error "cannot be added to AirBoundary Face"
  else
    .ok ()

/-- `Face.add_aperture` (`face.py` lines 493-512): after the acceptability
check the aperture's parent is set, its geometry is flipped when its normal
points against the face normal, it is appended and the cache is reset. -/
def addAperture (f : Face) (a : SubFace) : Except String Face :=
  match acceptableSubFaceCheck f with
  | .error e => .error e
  | .ok _ =>
    let a := { a with parent := some f.identifier }
    let a := if dot3 f.geometry.normal a.geometry.normal < 0 then
               { a with geometry := a.geometry.flip } else a
    .ok { f with apertures := f.apertures ++ [a], punched := none }

/-- `Face.add_door` (`face.py` lines 514-533): the door-side counterpart of
`addAperture`. -/
def addDoor (f : Face) (d : SubFace) : Except String Face :=
  match acceptableSubFaceCheck f with
  | .error e => .error e
  | .ok _ =>
    let d := { d with parent := some f.identifier }
    let d := if dot3 f.geometry.normal d.geometry.normal < 0 then
               { d with geometry := d.geometry.flip } else d
    .ok { f with doors := f.doors ++ [d], punched := none }

/-- `Face.add_apertures` (`face.py` lines 542-545). -/
def addApertures (f : Face) (aps : List SubFace) : Except String Face :=
  aps.foldlM addAperture f

/-- `Face.add_doors` (`face.py` lines 547-550). -/
def addDoors (f : Face) (drs : List SubFace) : Except String Face :=
  drs.foldlM addDoor f

/-- The `boundary_condition` setter (`face.py` lines 224-231): when the face
has apertures or doors, only Outdoors and Surface may be assigned. -/
def setBoundaryCondition (f : Face) (v : BoundaryCondition) : Except String Face :=
  if (!f.apertures.isEmpty || !f.doors.isEmpty) && !bcAllowsSubFaces v then
    .error "cannot be assigned to a Face with apertures or doors"
  else
    .ok { f with bc := v }

/-- `Face3D.from_punched_geometry` (ladybug collaborator): the parent boundary
with the sub-face boundaries cut in as holes. -/
def fromPunchedGeometry (base : Face3D) (subs : List Face3D) : Face3D :=
  { base with holes := base.holes ++ subs.map (·.boundary) }

/-- The punched geometry a Face's current state determines: the boundary with
holes for the current sub-faces, or the plain geometry when there are none
(`face.py` lines 283-289). -/
def computePunched (f : Face) : Face3D :=
  let subs := (f.apertures ++ f.doors).map (·.geometry)
  if subs.isEmpty then f.geometry else fromPunchedGeometry f.geometry subs

/-- The `punched_geometry` property (`face.py` lines 279-290): a memoized
read.  Returns the face (with the cache filled) and the value read. -/
def punchedGeometry (f : Face) : Face × Face3D :=
  match f.punched with
  | some g => (f, g)
  | none => ({ f with punched := some (computePunched f) }, computePunched f)

/-- The shared shape of `Face.move` / `rotate` / `rotate_xy` / `scale` /
`reflect` (`face.py` lines 1644-1726): the geometric transform `t` supplied by
the external library is applied to the face geometry and to every sub-face
geometry, and the punched-geometry cache is reset.  (Shade and extension
propagation is outside the embedded state.) -/
def transformFace (t : Face3D → Face3D) (f : Face) : Face :=
  { f with geometry := t f.geometry,
           apertures := f.apertures.map (fun a => { a with geometry := t a.geometry }),
           doors := f.doors.map (fun d => { d with geometry := t d.geometry }),
           punched := none }

/-- `Face.remove_colinear_vertices` (`face.py` lines 1728-1744): the
collaborator `rc` is ladybug's `Face3D.remove_colinear_vertices`, returning
`none` for degenerate geometry (the `AssertionError` the source re-raises as
`ValueError`).  On success the cache is reset. -/
def faceRemoveColinear (rc : Face3D → ℚ → Option Face3D) (f : Face) (tol : ℚ) :
    Except String Face :=
  match rc f.geometry tol with
  | none => .error "Face is invalid with dimensions less than the tolerance."
  | some g => .ok { f with geometry := g, punched := none }

/-- Modelled from the spec: `boundary_conditions.surface(other_face)` lives
in `boundarycondition.py` outside the verified sources; per spec section 9
the Surface variant carries the linked identifiers, headed by the other
face's identifier (with its parent room's identifier when it has one). -/
def surfaceBCFor (other : Face) : BoundaryCondition :=
  match other.parentRoom with
  | some r => .surface [other.identifier, r]
  | none => .surface [other.identifier]

/-- The greedy nearest-first pairing loop of `Face.set_adjacency`
(`face.py` lines 609-617 and 630-638): for each sub-face of this face, the
first sub-face of the other face whose center lies within the tolerance is
paired with it, and the number of paired sub-faces is counted. -/
def greedyPair (xs ys : List SubFace) (tol : ℚ) : Nat × List (SubFace × SubFace) :=
  xs.foldl
    (fun acc a =>
      match ys.find? (fun b => withinDist (center2 a.geometry) (center2 b.geometry) tol) with
      | some b => (acc.1 + 1, acc.2 ++ [(a, b)])
      | none => acc)
    (0, [])

/-- The adjacency information dictionary `set_adjacency` returns. -/
structure AdjInfo where
  adjacentApertures : List (SubFace × SubFace)
  adjacentDoors : List (SubFace × SubFace)
deriving DecidableEq, Repr

/-- `Face.set_adjacency` (`face.py` lines 562-647).  Both boundary conditions
are assigned first (lines 596-597); only then are the aperture counts
compared, the apertures greedily paired, the door counts compared and the
doors paired, raising at the first mismatch.  Because the source mutates
`self` and `other_face` before it can raise, the embedding returns the
(possibly mutated) pair of faces alongside the `Except` result.  (The
sub-face-level boundary-condition linking done by `Aperture.set_adjacency` /
`Door.set_adjacency` lives in the sibling entities outside `face.py`; the
pairing itself is recorded in the returned `AdjInfo`.) -/
def setAdjacency (f other : Face) (tol : ℚ) :
    (Face × Face) × Except String AdjInfo :=
  let f' := { f with bc := surfaceBCFor other }
  let other' := { other with bc := surfaceBCFor f }
  if f'.apertures.length ≠ other'.apertures.length then
    ((f', other'), .error "Number of apertures does not match.")
  else
    let gpA := greedyPair f'.apertures other'.apertures tol
    if f'.apertures.length ≠ 0 ∧ gpA.1 ≠ f'.apertures.length then
      ((f', other'), .error "Not all apertures were found to be adjacent.")
    else if f'.doors.length ≠ other'.doors.length then
      ((f', other'), .error "Number of doors does not match.")
    else
      let gpD := greedyPair f'.doors other'.doors tol
      if f'.doors.length ≠ 0 ∧ gpD.1 ≠ f'.doors.length then
        ((f', other'), .error "Not all doors were found to be adjacent.")
      else
        ((f', other'), .ok ⟨gpA.2, gpD.2⟩)

/-- `Face.apertures_by_ratio` (`face.py` lines 1188-1233).  The collaborators
are ladybug's `Face3D.remove_colinear_vertices` (`rc`, `none` on degenerate
geometry), `Face3D.sub_faces_by_ratio_rectangle` (`genRect`, used when
`rect_split` is set) and `Face3D.sub_faces_by_ratio` (`gen`).  The ratio
bounds are asserted, the acceptability check runs, all existing sub-faces are
removed, a zero ratio stops there, a degenerate face is silently skipped, and
otherwise one Aperture named `{identifier}_Glz{i}` is added per generated
geometry. -/
def aperturesByRatioM (rc : Face3D → ℚ → Option Face3D)
    (genRect : Face3D → ℚ → ℚ → List Face3D) (gen : Face3D → ℚ → List Face3D)
    (f : Face) (r tol : ℚ) (rectSplit : Bool) : Except String Face :=
  if ¬ (0 ≤ r ∧ r < 1) then .error "Ratio must be between 0 and 1."
  else match acceptableSubFaceCheck f with
  | .error e => .error e
  | .ok _ =>
    let f := (removeSubFaces f).1
    if r = 0 then .ok f
    else match rc f.geometry tol with
    | none => .ok f
    | some geo =>
      let apFaces := if rectSplit then genRect geo r tol else gen geo r
      addApertures f ((apFaces.enum).map (fun p =>
        freshAperture (f.identifier ++ "_Glz" ++ toString p.1) p.2))

/-- Stable insertion of a sub-face into a list sorted by decreasing area
(Python's stable `sort(key=area, reverse=True)`). -/
def insertDesc (a : SubFace) : List SubFace → List SubFace
  | [] => [a]
  | b :: bs => if b.geometry.area ≤ a.geometry.area then a :: b :: bs
               else b :: insertDesc a bs

/-- Sub-faces sorted by decreasing area. -/
def sortByAreaDesc (l : List SubFace) : List SubFace :=
  l.foldr insertDesc []

/-- Append a sub-face to the group at index `i`. -/
def appendAt (groups : List (List SubFace)) (i : Nat) (sf : SubFace) :
    List (List SubFace) :=
  groups.enum.map (fun p => if p.1 = i then p.2 ++ [sf] else p.2)

/-- `Face._group_sub_faces_by_overlap` (`face.py` lines 2191-2226): the
sub-faces are sorted by decreasing area and greedily grouped - each one joins
the first existing group containing a member it overlaps (the collaborator
`ov` is `Polygon2D.polygon_relationship(...) >= 0`), else starts a new
group. -/
def groupSubFacesByOverlap (ov : Face3D → Face3D → ℚ → Bool)
    (subFaces : List SubFace) (tol : ℚ) : List (List SubFace) :=
  (sortByAreaDesc subFaces).foldl
    (fun groups sf =>
      match groups.findIdx? (fun g => g.any (fun o => ov sf.geometry o.geometry tol)) with
      | some i => appendAt groups i sf
      | none => groups ++ [[sf]])
    []

/-- `Face._remove_overlapping_sub_faces` (`face.py` lines 2167-2189): from
each overlap group, only the sub-face of largest area is kept. -/
def removeOverlappingSubFaces (ov : Face3D → Face3D → ℚ → Bool)
    (subFaces : List SubFace) (tol : ℚ) : List SubFace :=
  (groupSubFacesByOverlap ov subFaces tol).filterMap
    (fun g => (sortByAreaDesc g).head?)

/-- The inner matching loop of `Face.rectangularize_apertures` (`face.py`
lines 782-786): the first original non-rectangular Aperture whose center is
equivalent (within the tolerance) to the regenerated geometry's center. -/
def firstCenterMatch (tol : ℚ) (g : Face3D) : List SubFace → Option SubFace
  | [] => none
  | o :: os => if ptEquiv (center2 o.geometry) (center2 g) tol then some o
               else firstCenterMatch tol g os

/-- The Aperture-creation step of `Face.rectangularize_apertures` (`face.py`
lines 780-793): each regenerated geometry that matches an original Aperture by
center equivalence keeps that Aperture's identifier and operable flag (with
the index appended to the display name); an unmatched geometry becomes a new
Aperture named `{parentId}_RG{i}`. -/
def matchRegenerated (parentId : String) (tol : ℚ) (olds : List SubFace)
    (geos : List Face3D) : List SubFace :=
  geos.enum.map (fun p =>
    match firstCenterMatch tol p.2 olds with
    | none => freshAperture (parentId ++ "_RG" ++ toString p.1) p.2
    | some old =>
      { identifier := old.identifier,
        displayName := old.displayName ++ "_" ++ toString p.1,
        geometry := p.2, isOperable := old.isOperable, bc := .outdoors,
        parent := none, kind := .aperture })

/-- The external `ladybug_geometry` operations `rectangularize_apertures`
consumes, as collaborator parameters:
`removeColinear` is `remove_colinear_vertices` (`none` on degenerate
geometry); `isRect` is `polygon2d.is_rectangle(angle_tolerance)`;
`joinCoplanar` is `Face3D.join_coplanar_faces`; `gapMerge` is the
gap-crossing merge block (`face.py` lines 727-750: projection to `Polygon2D`,
`Polygon2D.gap_crossing_boundary`, and reconstruction of `Face3D` boundaries
and holes); `overlaps` is `Polygon2D.polygon_relationship(...) >= 0`;
`subdivide` is the grid-subdivision block (`face.py` lines 811-902: a
`Mesh2D.from_polygon_grid` at the given resolution whose cells are merged to
row strips; `none` when the Aperture is smaller than the resolution). -/
structure GeoLib where
  removeColinear : Face3D → ℚ → Option Face3D
  isRect : Face3D → ℚ → Bool
  joinCoplanar : List Face3D → ℚ → List Face3D
  gapMerge : List Face3D → ℚ → ℚ → List Face3D
  overlaps : Face3D → Face3D → ℚ → Bool
  subdivide : Face3D → ℚ → ℚ → Option (List Face3D)

/-- `Face.rectangularize_apertures` (`face.py` lines 649-907), with
`sd = subdivision_distance`, `ms = max_separation` and `angT` the angle
tolerance in radians.  Returns the face and the changed/unchanged Boolean the
source returns. -/
def rectangularizeApertures (lib : GeoLib) (sd ms : Option ℚ) (mergeAll : Bool)
    (tol angT : ℚ) (f : Face) : Except String (Face × Bool) :=
  if f.apertures.isEmpty then .ok (f, false) else
  -- sort the rectangular and non-rectangular apertures (lines 694-708)
  let part := f.apertures.foldl
    (fun (acc : List SubFace × List SubFace × List Face3D) ap =>
      match lib.removeColinear ap.geometry tol with
      | none => acc
      | some cg =>
        if ms.isNone || !mergeAll then
          if lib.isRect cg angT then (acc.1 ++ [ap], acc.2.1, acc.2.2)
          else (acc.1, acc.2.1 ++ [ap], acc.2.2 ++ [cg])
        else (acc.1, acc.2.1 ++ [ap], acc.2.2 ++ [cg]))
    ([], [], [])
  let rectAps0 := part.1
  let nonRectAps := part.2.1
  if part.2.2.isEmpty then .ok (f, false) else
  -- reset boundary conditions to outdoors so new apertures can be added
  let bcReset := f.bc ≠ BoundaryCondition.outdoors
  let f1 := if bcReset then { f with bc := BoundaryCondition.outdoors } else f
  let rectAps := if bcReset then rectAps0.map (fun a => { a with bc := BoundaryCondition.outdoors })
                 else rectAps0
  -- merge the non-rectangular apertures if a max_separation is specified
  let step1 : Bool × List Face3D :=
    match ms with
    | none => (false, part.2.2)
    | some m =>
      if mergeAll || part.2.2.length > 1 then
        let merged := if m ≤ tol then lib.joinCoplanar part.2.2 tol
                      else lib.gapMerge part.2.2 m tol
        (true, (merged.map (fun g => (lib.removeColinear g tol).toList)).flatten)
      else (false, part.2.2)
  -- convert the remaining geometries to bounding rectangles (lines 760-774)
  let step2 : Bool × List Face3D :=
    match sd with
    | none => (true, step1.2.map (fun g => if lib.isRect g angT then g else boundRectOf g))
    | some _ => step1
  -- create Aperture objects from all of the merged geometries (lines 776-793)
  let newAps := if step2.1 then matchRegenerated f1.identifier tol nonRectAps step2.2
                else nonRectAps
  match sd with
  | none =>
    -- remove overlapping Apertures and replace the aperture set (lines 795-802)
    let allAps := removeOverlappingSubFaces lib.overlaps (rectAps ++ newAps) tol
    match addApertures (removeApertures f1).1 allAps with
    | .error e => .error e
    | .ok g => .ok (g, true)
  | some d =>
    -- subdivide the apertures into strips (lines 804-907)
    let newApObjs := (newAps.map (fun apObj =>
        if lib.isRect apObj.geometry angT then [apObj]
        else match lib.subdivide apObj.geometry d tol with
          | none => []
          | some strips => strips.enum.map (fun p =>
              { identifier := apObj.identifier ++ "_Glz" ++ toString p.1,
                displayName := apObj.displayName ++ "_" ++ toString p.1,
                geometry := p.2, isOperable := apObj.isOperable,
                bc := BoundaryCondition.outdoors, parent := none,
                kind := SubFaceKind.aperture }))).flatten
    match addApertures (removeApertures f1).1 (rectAps ++ newApObjs) with
    | .error e => .error e
    | .ok g => .ok (g, true)

/-- The matching rule as the specification words it (spec section 4.2):
a regenerated geometry is matched to the first original whose CENTROID lies
within the new geometry's bounding rectangle.  This definition follows the
spec's words, for comparison against `matchRegenerated`, which follows the
source. -/
def specMatchRegenerated (parentId : String) (olds : List SubFace)
    (geos : List Face3D) : List SubFace :=
  geos.enum.map (fun p =>
    match olds.find? (fun old => insideBoundRect (boundRectOf p.2) (centroid2 old.geometry)) with
    | none => freshAperture (parentId ++ "_RG" ++ toString p.1) p.2
    | some old =>
      { identifier := old.identifier,
        displayName := old.displayName ++ "_" ++ toString p.1,
        geometry := p.2, isOperable := old.isOperable, bc := .outdoors,
        parent := none, kind := .aperture })

/-- The external operations `fix_invalid_sub_faces` consumes, as collaborator
parameters: `removeColinear` is `remove_colinear_vertices` on a projected
polygon (`none` on degenerate geometry); `isInside` is
`Polygon2D.is_polygon_inside`; `isOutside` is `Polygon2D.is_polygon_outside`;
`coplanarInt` is `Face3D.coplanar_intersection` (`none` when the sub-face is
completely outside the parent); `offsetFromEdges` is the inward-offset block
(`face.py` lines 1131-1141: every boundary point closer than the offset
distance to a parent edge is moved inward perpendicular to that edge);
`groupOverlap` is `Polygon2D.group_by_overlap`; `unionAll` is
`Polygon2D.boolean_union_all`; `joinBoundary` is
`Polygon2D.joined_intersected_boundary`. -/
structure FixLib where
  removeColinear : Face3D → ℚ → Option Face3D
  isInside : Face3D → Face3D → Bool
  isOutside : Face3D → Face3D → Bool
  coplanarInt : Face3D → Face3D → ℚ → Option (List Face3D)
  offsetFromEdges : Face3D → Face3D → ℚ → Face3D
  groupOverlap : List Face3D → ℚ → List (List Face3D)
  unionAll : List Face3D → ℚ → List Face3D
  joinBoundary : List Face3D → ℚ → List Face3D

/-- A hole-free polygon in the face plane built from a boundary vertex list
(the `Polygon2D` values of the source). -/
def mkPoly (b : List Pt2) (n : Vec3) : Face3D :=
  { boundary := b, holes := [], normal := n }

/-- The sub-face collection step shared by `fix_invalid_sub_faces` and
`merge_neighboring_sub_faces` (`face.py` lines 1093-1105): each sub-face's
boundary is projected to the face plane and cleaned of colinear vertices;
degenerate sub-faces are skipped.  Returns the cleaned polygons paired with
their source objects, and the total original area. -/
def collectSubFacePolys (rc : Face3D → ℚ → Option Face3D) (tol : ℚ) (f : Face) :
    List (Face3D × SubFace) × ℚ :=
  (f.apertures ++ f.doors).foldl
    (fun acc sf =>
      match rc (mkPoly sf.geometry.boundary sf.geometry.normal) tol with
      | none => acc
      | some p => (acc.1 ++ [(p, sf)], acc.2 + Face3D.area p))
    ([], 0)

/-- `Face._is_sub_polygon` (`face.py` lines 2228-2246). -/
def isSubPolygon (isInside isOutside : Face3D → Face3D → Bool)
    (subPoly parentPoly : Face3D) (parentHoles : Option (List Face3D)) : Bool :=
  match parentHoles with
  | none => isInside parentPoly subPoly
  | some holes => isInside parentPoly subPoly && holes.all (fun h => isOutside h subPoly)

/-- The trim-with-parent pass of `fix_invalid_sub_faces` (`face.py` lines
1108-1144): a polygon correctly bounded by the parent is kept; otherwise it is
replaced by its boolean intersection with the parent (dropped when completely
outside), with each resulting piece offset inward from nearby parent edges. -/
def trimPass (lib : FixLib) (faceGeo : Face3D) (offD tol : ℚ)
    (polys : List Face3D) : List Face3D :=
  let parentPoly := mkPoly faceGeo.boundary faceGeo.normal
  let parentHoles := if faceGeo.holes.isEmpty then none
                     else some (faceGeo.holes.map (fun h => mkPoly h faceGeo.normal))
  (polys.map (fun p =>
    if isSubPolygon lib.isInside lib.isOutside p parentPoly parentHoles then [p]
    else match lib.coplanarInt faceGeo p tol with
      | none => []
      | some pieces => pieces.map (fun nf => lib.offsetFromEdges faceGeo nf offD))).flatten

/-- One overlap group of the union-overlaps pass (`face.py` lines 1152-1159):
a singleton group is kept; a larger group is replaced by its boolean union
cleaned of colinear vertices (raising on a degenerate union result, as the
uncaught `AssertionError` of the source would). -/
def unionGroup (lib : FixLib) (tol : ℚ) (acc : List Face3D) (g : List Face3D) :
    Except String (List Face3D) :=
  if g.length = 1 then .ok (acc ++ g)
  else (lib.unionAll g tol).foldlM
    (fun acc2 np =>
      match lib.removeColinear np tol with
      | some q => Except.ok (acc2 ++ [q])
      | none => Except.error "degenerate union result")
    acc

/-- The union-overlaps pass of `fix_invalid_sub_faces` (`face.py` lines
1147-1161): polygons are grouped by pairwise overlap; when not all groups are
singletons each group runs through `unionGroup`; finally touching polygons
are joined (unconditional within the pass). -/
def unionPass (lib : FixLib) (tol : ℚ) (polys : List Face3D) :
    Except String (List Face3D) :=
  let groups := lib.groupOverlap polys tol
  match (if groups.all (fun g => g.length = 1) then Except.ok polys
         else groups.foldlM (unionGroup lib tol) []) with
  | .error e => .error e
  | .ok polys2 => .ok (lib.joinBoundary polys2 tol)

/-- The sub-face rebuild step shared by `fix_invalid_sub_faces` and
`merge_neighboring_sub_faces` (`face.py` lines 1167-1186): all sub-faces are
removed, then each new polygon becomes the duplicate of the first original
object whose center falls inside the polygon's bounding rectangle (keeping its
identifier, kind and operable flag), or a new Aperture named
`{identifier}_{i}` when no original matches. -/
def rebuildSubFaces (f : Face) (originals : List (Face3D × SubFace))
    (polys : List Face3D) : Except String Face :=
  (polys.enum).foldlM
    (fun acc p =>
      match originals.find? (fun op => insideBoundRect p.2 (center2 op.1)) with
      | none => addAperture acc (freshAperture (f.identifier ++ "_" ++ toString p.1) p.2)
      | some op =>
        let dup := { op.2 with geometry := p.2, parent := none }
        match dup.kind with
        | .aperture => addAperture acc dup
        | .door => addDoor acc dup)
    (removeSubFaces f).1

/-- `Face.fix_invalid_sub_faces` (`face.py` lines 1068-1186): the cleaned
sub-face polygons run through the (toggleable) trim-with-parent and
union-overlaps passes; the sub-face set is rebuilt only when the polygon count
differs from the original count or the total area changed by more than the
tolerance. -/
def fixInvalidSubFaces (lib : FixLib) (trimQ unionQ : Bool) (offD tol : ℚ)
    (f : Face) : Except String Face :=
  let collected := collectSubFacePolys lib.removeColinear tol f
  let origPolys := collected.1.map (·.1)
  let polys1 := if trimQ then trimPass lib f.geometry offD tol origPolys else origPolys
  match (if unionQ then unionPass lib tol polys1 else Except.ok polys1) with
  | .error e => .error e
  | .ok cleanPolys =>
    if cleanPolys.length ≠ origPolys.length ∨
        |collected.2 - (cleanPolys.map Face3D.area).sum| > tol then
      rebuildSubFaces f collected.1 cleanPolys
    else
      Except.ok f

/-- `Face.__init__` with an explicit type and boundary condition, as
`from_dict` always calls it (`face.py` lines 95-119 and 142-143): a fresh face
with no sub-faces, no parent and an empty cache; the display name defaults to
the identifier. -/
def mkFace (id : String) (g : Face3D) (t : FaceTypeT) (b : BoundaryCondition) : Face :=
  { identifier := id, displayName := id, geometry := g, ftype := t, bc := b,
    apertures := [], doors := [], punched := none, parentRoom := none }

/-- The `name` attribute of a face type object. -/
def faceTypeName : FaceTypeT → String
  | .wall => "Wall"
  | .floor => "Floor"
  | .roofCeiling => "RoofCeiling"
  | .airBoundary => "AirBoundary"

/-- `face_types.by_name` (`facetype.py` collaborator): lookup of a face type
object from its name; `none` models the lookup error for an unknown name. -/
def faceTypeByName (s : String) : Option FaceTypeT :=
  if s = "Wall" then some .wall
  else if s = "Floor" then some .floor
  else if s = "RoofCeiling" then some .roofCeiling
  else if s = "AirBoundary" then some .airBoundary
  else none

/-- Modelled from the spec: the dictionary form of a boundary condition -
its `type` name and (for Surface) its `boundary_condition_objects`.
`boundarycondition.py` is outside the verified sources; section 6 of the spec
records `type` plus the Surface link identifiers as the serialized content. -/
structure BCDict where
  typeName : String
  bcObjects : List String
deriving DecidableEq, Repr

/-- Modelled from the spec: boundary-condition `to_dict` (section 6). -/
def bcToDict : BoundaryCondition → BCDict
  | .outdoors => ⟨"Outdoors", []⟩
  | .ground => ⟨"Ground", []⟩
  | .adiabatic => ⟨"Adiabatic", []⟩
  | .surface l => ⟨"Surface", l⟩

/-- Boundary-condition reconstruction from a dictionary, as `from_dict` uses
it (`face.py` lines 169-173): the class named by `type` is looked up and
deserialized; `none` models the `AttributeError` path for an
extension-defined boundary condition, on which the face keeps Outdoors. -/
def bcFromDict (d : BCDict) : Option BoundaryCondition :=
  if d.typeName = "Outdoors" then some .outdoors
  else if d.typeName = "Ground" then some .ground
  else if d.typeName = "Adiabatic" then some .adiabatic
  else if d.typeName = "Surface" then some (.surface d.bcObjects)
  else none

/-- Modelled from the spec: the dictionary form of an Aperture or Door.
`aperture.py`/`door.py` are outside the verified sources; section 6 lists
`type`, `identifier`, `display_name`, `geometry`, `boundary_condition` (plus
the operable flag) as the serialized content.  The geometry dictionary is the
external `Face3D.to_dict`, modelled as the embedded `Face3D` value itself. -/
structure SubFaceDict where
  identifier : String
  displayName : String
  geometry : Face3D
  isOperable : Bool
  boundaryCondition : BCDict
  kind : SubFaceKind
deriving DecidableEq, Repr

/-- Modelled from the spec: `Aperture.to_dict` / `Door.to_dict` (section 6);
the parent back-reference is not serialized. -/
def subFaceToDict (s : SubFace) : SubFaceDict :=
  ⟨s.identifier, s.displayName, s.geometry, s.isOperable, bcToDict s.bc, s.kind⟩

/-- Modelled from the spec: `Aperture.from_dict` / `Door.from_dict`
(section 6) - a fresh unparented sub-face with the stored attributes; an
extension boundary condition falls back to Outdoors. -/
def subFaceFromDict (d : SubFaceDict) : SubFace :=
  { identifier := d.identifier, displayName := d.displayName,
    geometry := d.geometry, isOperable := d.isOperable,
    bc := (bcFromDict d.boundaryCondition).getD .outdoors,
    parent := none, kind := d.kind }

/-- The dictionary form of a Face (`face.py` to_dict/from_dict): `type` is
the constant "Face"; `apertures`/`doors` are present only when non-empty.
The geometry dictionary is the external `Face3D.to_dict`, modelled as the
embedded `Face3D` value itself (the library's to_dict/from_dict pair is an
inverse).  Shade lists, user data and extension properties are outside the
embedded state. -/
structure FaceDict where
  identifier : String
  displayName : Option String
  geometry : Face3D
  faceTypeStr : String
  boundaryCondition : BCDict
  apertures : Option (List SubFaceDict)
  doors : Option (List SubFaceDict)
deriving DecidableEq, Repr

/-- `Face.to_dict` (`face.py` lines 2117-2156), restricted to the embedded
state (no extension properties, so the plain boundary-condition and geometry
serializations are used). -/
def faceToDict (f : Face) : FaceDict :=
  { identifier := f.identifier,
    displayName := some f.displayName,
    geometry := f.geometry,
    faceTypeStr := faceTypeName f.ftype,
    boundaryCondition := bcToDict f.bc,
    apertures := if f.apertures.isEmpty then none else some (f.apertures.map subFaceToDict),
    doors := if f.doors.isEmpty then none else some (f.doors.map subFaceToDict) }

/-- `Face.from_dict` (`face.py` lines 121-180): the face is first built with
an Outdoors boundary condition, the display name is restored when present,
the apertures and doors are added through `add_apertures`/`add_doors`, and
only then is the stored boundary condition assigned through the setter (an
unknown type name defaults to Outdoors). -/
def faceFromDict (d : FaceDict) : Except String Face :=
  match faceTypeByName d.faceTypeStr with
  | none => Except.error "is not a valid face type"
  | some ft =>
    let f0 := mkFace d.identifier d.geometry ft .outdoors
    let f0 := match d.displayName with
              | some n => { f0 with displayName := n }
              | none => f0
    match (match d.apertures with
           | some aps => addApertures f0 (aps.map subFaceFromDict)
           | none => Except.ok f0) with
    | .error e => .error e
    | .ok f1 =>
      match (match d.doors with
             | some drs => addDoors f1 (drs.map subFaceFromDict)
             | none => Except.ok f1) with
      | .error e => .error e
      | .ok f2 =>
        match bcFromDict d.boundaryCondition with
        | some b => setBoundaryCondition f2 b
        | none => Except.ok f2

/-- The mutating Face operations the punched-geometry claims range over:
adding or removing apertures/doors, the five geometric transforms
(`move`, `rotate`, `rotate_xy`, `scale`, `reflect`, which share the
`transformFace` shape with their respective external transform `t`), and
`remove_colinear_vertices`. -/
inductive FaceMutation where
  | addAp (a : SubFace)
  | addDr (d : SubFace)
  | removeAps
  | removeDrs
  | removeSubs
  | transform (t : Face3D → Face3D)
  | removeColinearVerts (rc : Face3D → ℚ → Option Face3D) (tol : ℚ)

/-- Application of a mutating operation to a Face. -/
def applyMutation : FaceMutation → Face → Except String Face
  | .addAp a, f => addAperture f a
  | .addDr d, f => addDoor f d
  | .removeAps, f => .ok (removeApertures f).1
  | .removeDrs, f => .ok (removeDoors f).1
  | .removeSubs, f => .ok (removeSubFaces f).1
  | .transform t, f => .ok (transformFace t f)
  | .removeColinearVerts rc tol, f => faceRemoveColinear rc f tol

/-- The sub-face/boundary-condition invariant of the spec (section 3): a face
with at least one Aperture or Door has an Outdoors or Surface boundary
condition. -/
def subFaceBCInvariant (f : Face) : Prop :=
  f.apertures ≠ [] ∨ f.doors ≠ [] → bcAllowsSubFaces f.bc = true

/-- A well-formed Face, as the constructor and the add/remove operations
produce it: sub-faces force an Outdoors/Surface boundary condition and a
non-AirBoundary type, and every sub-face is of the right kind, points with
the face normal, and carries the parent back-reference. -/
def validFace (f : Face) : Prop :=
  (f.apertures ≠ [] ∨ f.doors ≠ [] →
    bcAllowsSubFaces f.bc = true ∧ f.ftype ≠ FaceTypeT.airBoundary) ∧
  (∀ a ∈ f.apertures, a.parent = some f.identifier ∧ a.kind = SubFaceKind.aperture ∧
    0 ≤ dot3 f.geometry.normal a.geometry.normal) ∧
  (∀ d ∈ f.doors, d.parent = some f.identifier ∧ d.kind = SubFaceKind.door ∧
    0 ≤ dot3 f.geometry.normal d.geometry.normal)

/-- The sub-face as `add_aperture`/`add_door` actually stores it: parent set,
geometry flipped when its normal points against the face normal. -/
def attachedSubFace (f : Face) (a : SubFace) : SubFace :=
  let a1 := { a with parent := some f.identifier }
  if dot3 f.geometry.normal a1.geometry.normal < 0 then
    { a1 with geometry := a1.geometry.flip }
  else a1

/-- Bounding boxes of two geometries intersect or touch.  For the axis-aligned
rectangles it is instantiated at below, this coincides with
`Polygon2D.polygon_relationship(...) >= 0`. -/
def bboxOverlap (g1 g2 : Face3D) : Bool :=
  let mn1 := bboxMin g1.boundary
  let mx1 := bboxMax g1.boundary
  let mn2 := bboxMin g2.boundary
  let mx2 := bboxMax g2.boundary
  mn1.x ≤ mx2.x && mn2.x ≤ mx1.x && mn1.y ≤ mx2.y && mn2.y ≤ mx1.y

/-- A 2 x 2 square in the face plane (the spec's concrete scenario size). -/
def sq2 : Face3D :=
  { boundary := [⟨0, 0⟩, ⟨2, 0⟩, ⟨2, 2⟩, ⟨0, 2⟩], holes := [], normal := ⟨0, 0, 1⟩ }

/-- A 2 x 1 rectangle: half the area of `sq2`. -/
def halfRect : Face3D :=
  { boundary := [⟨0, 0⟩, ⟨2, 0⟩, ⟨2, 1⟩, ⟨0, 1⟩], holes := [], normal := ⟨0, 0, 1⟩ }

/-- An 8 x 8 square used as a parent wall. -/
def sq8 : Face3D :=
  { boundary := [⟨0, 0⟩, ⟨8, 0⟩, ⟨8, 8⟩, ⟨0, 8⟩], holes := [], normal := ⟨0, 0, 1⟩ }

/-- A small triangular aperture: bounding box `[2,4] x [2,4]`, so its center
is `(3,3)` and its area centroid `(8/3, 8/3)`. -/
def triS : Face3D :=
  { boundary := [⟨2, 2⟩, ⟨4, 2⟩, ⟨2, 4⟩], holes := [], normal := ⟨0, 0, 1⟩ }

/-- A large L-shaped aperture along the bottom and right edges of `sq8`: its
bounding box is all of `[0,8] x [0,8]` (center `(4,4)`), and that bounding box
contains the centroid of `triS`, although the two regions are disjoint. -/
def shapeL : Face3D :=
  { boundary := [⟨0, 0⟩, ⟨8, 0⟩, ⟨8, 8⟩, ⟨6, 8⟩, ⟨6, 1⟩, ⟨0, 1⟩], holes := [],
    normal := ⟨0, 0, 1⟩ }

/-- The triangular Aperture object. -/
def apSmall : SubFace :=
  { identifier := "apSmall", displayName := "apSmall", geometry := triS,
    isOperable := true, bc := .outdoors, parent := some "wallC3", kind := .aperture }

/-- The L-shaped Aperture object. -/
def apBig : SubFace :=
  { identifier := "apBig", displayName := "apBig", geometry := shapeL,
    isOperable := false, bc := .outdoors, parent := some "wallC3", kind := .aperture }

/-- A wall with the two non-rectangular apertures above. -/
def faceC3 : Face :=
  { mkFace "wallC3" sq8 .wall .outdoors with apertures := [apSmall, apBig] }

/-- A concrete geometry-library instance for the shapes above: nothing is
degenerate, a polygon is a rectangle exactly when it has four vertices (true
for `triS`, `shapeL` and their bounding rectangles), and overlap of the
axis-aligned rectangles produced by rectangularization is the exact
bounding-box test. -/
def libC3 : GeoLib :=
  { removeColinear := fun g _ => some g,
    isRect := fun g _ => g.boundary.length == 4,
    joinCoplanar := fun l _ => l,
    gapMerge := fun l _ _ => l,
    overlaps := fun g1 g2 _ => bboxOverlap g1 g2,
    subdivide := fun _ _ _ => none }

/-- A geometry-library instance on which nothing is degenerate and everything
is already rectangular. -/
def trivGeoLib : GeoLib :=
  { removeColinear := fun g _ => some g,
    isRect := fun _ _ => true,
    joinCoplanar := fun l _ => l,
    gapMerge := fun l _ _ => l,
    overlaps := fun _ _ _ => false,
    subdivide := fun _ _ _ => none }

/-- A fix-library instance on which nothing is degenerate, every sub-face is
correctly bounded and nothing overlaps. -/
def trivFixLib : FixLib :=
  { removeColinear := fun g _ => some g,
    isInside := fun _ _ => true,
    isOutside := fun _ _ => true,
    coplanarInt := fun _ p _ => some [p],
    offsetFromEdges := fun _ p _ => p,
    groupOverlap := fun l _ => l.map (fun p => [p]),
    unionAll := fun l _ => l,
    joinBoundary := fun l _ => l }

/-- A bare 2 x 2 wall. -/
def wallA : Face := mkFace "wallA" sq2 .wall .outdoors

/-- A second bare 2 x 2 wall (geometrically coincident with `wallA`). -/
def wallB : Face := mkFace "wallB" sq2 .wall .outdoors

/-- An Aperture parented to the wall `wallD`. -/
def apA : SubFace :=
  { identifier := "apA", displayName := "apA",
    geometry := { boundary := [⟨1, 2⟩, ⟨3, 2⟩, ⟨3, 4⟩, ⟨1, 4⟩], holes := [],
                  normal := ⟨0, 0, 1⟩ },
    isOperable := false, bc := .outdoors, parent := some "wallD", kind := .aperture }

/-- A Door parented to the wall `wallD`. -/
def doorD : SubFace :=
  { identifier := "doorD", displayName := "doorD", geometry := halfRect,
    isOperable := false, bc := .outdoors, parent := some "wallD", kind := .door }

/-- A wall holding one Aperture and one Door. -/
def faceWithDoor : Face :=
  { mkFace "wallD" sq8 .wall .outdoors with apertures := [apA], doors := [doorD] }

/-- A rectangular Aperture parented to the wall `wallR`. -/
def rectAp : SubFace :=
  { identifier := "rectAp", displayName := "rectAp", geometry := halfRect,
    isOperable := false, bc := .outdoors, parent := some "wallR", kind := .aperture }

/-- A wall whose only aperture is already rectangular. -/
def faceC6 : Face :=
  { mkFace "wallR" sq8 .wall .outdoors with apertures := [rectAp] }

/-- An Aperture parented to the wall `wallE`. -/
def apE : SubFace :=
  { identifier := "apE", displayName := "apE", geometry := halfRect,
    isOperable := true, bc := .outdoors, parent := some "wallE", kind := .aperture }

/-- A wall with one aperture, used for the serialization round trip. -/
def faceC8 : Face :=
  { mkFace "wallE" sq8 .wall .outdoors with apertures := [apE] }

/-! ## Helper lemmas -/

theorem flip_area (g : Face3D) : g.flip.area = g.area := rfl

theorem attached_area (f : Face) (a : SubFace) :
    Face3D.area (attachedSubFace f a).geometry = Face3D.area a.geometry := by
  unfold attachedSubFace
  dsimp only
  split <;> rfl

theorem acceptable_ok {f : Face} (h1 : f.bc = .outdoors)
    (h2 : f.ftype ≠ .airBoundary) : acceptableSubFaceCheck f = .ok () := by
  unfold acceptableSubFaceCheck
  simp [h1, h2]

theorem addAperture_ok {f : Face} (a : SubFace) (h1 : f.bc = .outdoors)
    (h2 : f.ftype ≠ .airBoundary) :
    addAperture f a = .ok { f with apertures := f.apertures ++ [attachedSubFace f a],
                                   punched := none } := by
  unfold addAperture
  rw [acceptable_ok h1 h2]
  rfl

theorem addDoor_ok {f : Face} (d : SubFace) (h1 : f.bc = .outdoors)
    (h2 : f.ftype ≠ .airBoundary) :
    addDoor f d = .ok { f with doors := f.doors ++ [attachedSubFace f d],
                               punched := none } := by
  unfold addDoor
  rw [acceptable_ok h1 h2]
  rfl

theorem addApertures_ok (aps : List SubFace) : ∀ (f : Face),
    f.bc = .outdoors → f.ftype ≠ .airBoundary →
    addApertures f aps = .ok { f with
      apertures := f.apertures ++ aps.map (attachedSubFace f),
      punched := if aps.isEmpty then f.punched else none } := by
  induction aps with
  | nil =>
    intro f h1 h2
    simp only [addApertures, List.foldlM_nil, List.map_nil, List.append_nil,
      List.isEmpty_nil, if_true]
    rfl
  | cons a as ih =>
    intro f h1 h2
    rw [addApertures, List.foldlM_cons, addAperture_ok a h1 h2]
    show addApertures _ as = _
    have ih2 := ih { f with apertures := f.apertures ++ [attachedSubFace f a],
                            punched := none } h1 h2
    rw [ih2]
    congr 1
    simp [List.append_assoc]
    intro x hx
    rfl

theorem addDoors_ok (drs : List SubFace) : ∀ (f : Face),
    f.bc = .outdoors → f.ftype ≠ .airBoundary →
    addDoors f drs = .ok { f with
      doors := f.doors ++ drs.map (attachedSubFace f),
      punched := if drs.isEmpty then f.punched else none } := by
  induction drs with
  | nil =>
    intro f h1 h2
    simp only [addDoors, List.foldlM_nil, List.map_nil, List.append_nil,
      List.isEmpty_nil, if_true]
    rfl
  | cons d ds ih =>
    intro f h1 h2
    rw [addDoors, List.foldlM_cons, addDoor_ok d h1 h2]
    show addDoors _ ds = _
    have ih2 := ih { f with doors := f.doors ++ [attachedSubFace f d],
                            punched := none } h1 h2
    rw [ih2]
    congr 1
    simp [List.append_assoc]
    intro x hx
    rfl

theorem removeSubFaces_fst (f : Face) :
    (removeSubFaces f).1 = { f with apertures := [], doors := [], punched := none } := rfl

theorem greedy_count_all (ys : List SubFace) (tol : ℚ) :
    ∀ (xs : List SubFace) (acc : Nat × List (SubFace × SubFace)),
      (∀ a ∈ xs, (ys.find?
        (fun b => withinDist (center2 a.geometry) (center2 b.geometry) tol)).isSome) →
      (List.foldl (fun acc a =>
        match ys.find? (fun b => withinDist (center2 a.geometry) (center2 b.geometry) tol) with
        | some b => (acc.1 + 1, acc.2 ++ [(a, b)])
        | none => acc) acc xs).1 = acc.1 + xs.length := by
  intro xs
  induction xs with
  | nil => intro acc _; simp
  | cons a as ih =>
    intro acc h
    have ha := h a (List.mem_cons_self a as)
    rw [List.foldl_cons]
    cases hf : ys.find? (fun b => withinDist (center2 a.geometry) (center2 b.geometry) tol) with
    | none => rw [hf] at ha; simp at ha
    | some b =>
      simp only [hf]
      rw [ih _ (fun x hx => h x (List.mem_cons_of_mem a hx))]
      simp only [List.length_cons]
      omega

theorem greedy_count_le (ys : List SubFace) (tol : ℚ) :
    ∀ (xs : List SubFace) (acc : Nat × List (SubFace × SubFace)),
      (List.foldl (fun acc a =>
        match ys.find? (fun b => withinDist (center2 a.geometry) (center2 b.geometry) tol) with
        | some b => (acc.1 + 1, acc.2 ++ [(a, b)])
        | none => acc) acc xs).1 ≤ acc.1 + xs.length := by
  intro xs
  induction xs with
  | nil => intro acc; simp
  | cons a as ih =>
    intro acc
    rw [List.foldl_cons]
    cases hf : ys.find? (fun b => withinDist (center2 a.geometry) (center2 b.geometry) tol) with
    | none =>
      simp only [hf]
      calc _ ≤ acc.1 + as.length := ih acc
        _ ≤ acc.1 + (a :: as).length := by simp only [List.length_cons]; omega
    | some b =>
      simp only [hf]
      calc _ ≤ (acc.1 + 1) + as.length := ih _
        _ ≤ acc.1 + (a :: as).length := by simp only [List.length_cons]; omega

theorem greedy_count_lt (ys : List SubFace) (tol : ℚ) :
    ∀ (xs : List SubFace) (acc : Nat × List (SubFace × SubFace)),
      (∃ a ∈ xs, ys.find?
        (fun b => withinDist (center2 a.geometry) (center2 b.geometry) tol) = none) →
      (List.foldl (fun acc a =>
        match ys.find? (fun b => withinDist (center2 a.geometry) (center2 b.geometry) tol) with
        | some b => (acc.1 + 1, acc.2 ++ [(a, b)])
        | none => acc) acc xs).1 < acc.1 + xs.length := by
  intro xs
  induction xs with
  | nil => intro acc h; simp at h
  | cons a as ih =>
    intro acc h
    obtain ⟨w, hw, hwnone⟩ := h
    rw [List.foldl_cons]
    rcases List.mem_cons.mp hw with hwa | hwas
    · rw [hwa] at hwnone
      rw [hwnone]
      calc _ ≤ acc.1 + as.length := greedy_count_le ys tol as acc
        _ < acc.1 + (a :: as).length := by simp only [List.length_cons]; omega
    · cases hf : ys.find? (fun b => withinDist (center2 a.geometry) (center2 b.geometry) tol) with
      | none =>
        simp only [hf]
        calc _ < acc.1 + as.length := ih acc ⟨w, hwas, hwnone⟩
          _ ≤ acc.1 + (a :: as).length := by simp only [List.length_cons]; omega
      | some b =>
        simp only [hf]
        calc _ < (acc.1 + 1) + as.length := ih _ ⟨w, hwas, hwnone⟩
          _ ≤ acc.1 + (a :: as).length := by simp only [List.length_cons]; omega

theorem greedyPair_count_eq {ys : List SubFace} {tol : ℚ} {xs : List SubFace}
    (h : ∀ a ∈ xs, ∃ b ∈ ys,
      withinDist (center2 a.geometry) (center2 b.geometry) tol = true) :
    (greedyPair xs ys tol).1 = xs.length := by
  unfold greedyPair
  rw [greedy_count_all ys tol xs (0, [])]
  · omega
  · intro a ha
    obtain ⟨b, hb, hp⟩ := h a ha
    cases hf : ys.find? (fun b => withinDist (center2 a.geometry) (center2 b.geometry) tol) with
    | some _ => rfl
    | none => exact absurd hp (by simpa using List.find?_eq_none.mp hf b hb)

theorem greedyPair_count_ne {ys : List SubFace} {tol : ℚ} {xs : List SubFace}
    (h : ∃ a ∈ xs, ∀ b ∈ ys,
      ¬ withinDist (center2 a.geometry) (center2 b.geometry) tol = true) :
    (greedyPair xs ys tol).1 ≠ xs.length := by
  unfold greedyPair
  have hlt := greedy_count_lt ys tol xs (0, []) (by
    obtain ⟨a, ha, hnone⟩ := h
    exact ⟨a, ha, List.find?_eq_none.mpr (fun b hb => by simpa using hnone b hb)⟩)
  omega

/-- C2: `set_adjacency` succeeds whenever the two faces have equal aperture
counts and equal door counts and every sub-face of this face has a counterpart
on the other face whose center lies within the distance tolerance; it leaves
both faces' boundary conditions as Surface conditions whose reference list
starts with the other face's identifier.  It raises whenever the aperture
counts differ, whenever the door counts differ, whenever some aperture of
this face has no counterpart within the tolerance, and whenever some door of
this face has no counterpart within the tolerance - so it is never silently
partial. -/
theorem c2_setAdjacency_contract (f other : Face) (tol : ℚ) :
    ((f.apertures.length = other.apertures.length →
      f.doors.length = other.doors.length →
      (∀ a ∈ f.apertures, ∃ b ∈ other.apertures,
        withinDist (center2 a.geometry) (center2 b.geometry) tol = true) →
      (∀ d ∈ f.doors, ∃ b ∈ other.doors,
        withinDist (center2 d.geometry) (center2 b.geometry) tol = true) →
      ∃ info, (setAdjacency f other tol).2 = .ok info) ∧
     ((setAdjacency f other tol).1.1.bc = surfaceBCFor other ∧
      (setAdjacency f other tol).1.2.bc = surfaceBCFor f ∧
      (∃ rest, surfaceBCFor other = .surface (other.identifier :: rest)) ∧
      (∃ rest, surfaceBCFor f = .surface (f.identifier :: rest)))) ∧
    ((f.apertures.length ≠ other.apertures.length →
      ∃ e, (setAdjacency f other tol).2 = .error e) ∧
     (f.doors.length ≠ other.doors.length →
      ∃ e, (setAdjacency f other tol).2 = .error e) ∧
     ((∃ a ∈ f.apertures, ∀ b ∈ other.apertures,
        ¬ withinDist (center2 a.geometry) (center2 b.geometry) tol = true) →
      ∃ e, (setAdjacency f other tol).2 = .error e) ∧
     ((∃ d ∈ f.doors, ∀ b ∈ other.doors,
        ¬ withinDist (center2 d.geometry) (center2 b.geometry) tol = true) →
      ∃ e, (setAdjacency f other tol).2 = .error e)) := by
  unfold setAdjacency
  dsimp only
  constructor
  · constructor
    · intro hlenA hlenD hmatchA hmatchD
      split_ifs with h1 h2 h3 h4
      · exact absurd hlenA h1
      · exact absurd h2.2 (by simp [greedyPair_count_eq hmatchA])
      · exact absurd hlenD h3
      · exact absurd h4.2 (by simp [greedyPair_count_eq hmatchD])
      · exact ⟨_, rfl⟩
    · refine ⟨?_, ?_, ?_, ?_⟩
      · split_ifs <;> rfl
      · split_ifs <;> rfl
      · unfold surfaceBCFor; cases other.parentRoom <;> exact ⟨_, rfl⟩
      · unfold surfaceBCFor; cases f.parentRoom <;> exact ⟨_, rfl⟩
  · refine ⟨?_, ?_, ?_, ?_⟩
    · intro hne
      split_ifs with h1 h2 h3 h4 <;> first | exact ⟨_, rfl⟩ | exact absurd hne (by tauto)
    · intro hne
      split_ifs with h1 h2 h3 h4 <;> first | exact ⟨_, rfl⟩ | exact absurd hne (by tauto)
    · intro hex
      have hne : (greedyPair f.apertures other.apertures tol).1 ≠ f.apertures.length :=
        greedyPair_count_ne hex
      have hnz : f.apertures.length ≠ 0 := by
        obtain ⟨a, ha, _⟩ := hex
        exact List.length_pos.mpr (List.ne_nil_of_mem ha) |>.ne'
      split_ifs with h1 h2 h3 h4 <;>
        first | exact ⟨_, rfl⟩ | exact absurd (And.intro hnz hne) h2
    · intro hex
      have hne : (greedyPair f.doors other.doors tol).1 ≠ f.doors.length :=
        greedyPair_count_ne hex
      have hnz : f.doors.length ≠ 0 := by
        obtain ⟨d, hd, _⟩ := hex
        exact List.length_pos.mpr (List.ne_nil_of_mem hd) |>.ne'
      split_ifs with h1 h2 h3 h4 <;>
        first | exact ⟨_, rfl⟩ | exact absurd (And.intro hnz hne) h4

/-- Witness for C2: two bare 2 x 2 walls with no sub-faces are successfully
set adjacent, and a face with one aperture against a face with none raises. -/
theorem c2_setAdjacency_contract_witness :
    (∃ info, (setAdjacency wallA wallB 1).2 = .ok info) ∧
    (∃ e, (setAdjacency faceWithDoor wallA 1).2 = .error e) := by
  constructor
  · exact (c2_setAdjacency_contract wallA wallB 1).1.1 rfl rfl
      (by intro a ha; simp [wallA, mkFace] at ha) (by intro d hd; simp [wallA, mkFace] at hd)
  · exact (c2_setAdjacency_contract faceWithDoor wallA 1).2.1 (by decide)

/-- C9: `set_adjacency` is not atomic on error - it assigns both faces'
boundary conditions as mutual Surface conditions (each reference list headed
by the other face's identifier) before any count or matching check, so
whenever it raises, both returned faces carry the new Surface boundary
conditions rather than their originals. -/
theorem c9_setAdjacency_partial_mutation (f other : Face) (tol : ℚ) (e : String)
    (h : (setAdjacency f other tol).2 = .error e) :
    (setAdjacency f other tol).1.1.bc = surfaceBCFor other ∧
    (setAdjacency f other tol).1.2.bc = surfaceBCFor f ∧
    (∃ rest, surfaceBCFor other = .surface (other.identifier :: rest)) ∧
    (∃ rest, surfaceBCFor f = .surface (f.identifier :: rest)) := by
  refine ⟨?_, ?_, ?_, ?_⟩
  · unfold setAdjacency; dsimp only; split_ifs <;> rfl
  · unfold setAdjacency; dsimp only; split_ifs <;> rfl
  · unfold surfaceBCFor; cases other.parentRoom <;> exact ⟨_, rfl⟩
  · unfold surfaceBCFor; cases f.parentRoom <;> exact ⟨_, rfl⟩

/-- Witness for C9: the aperture-count mismatch between `faceWithDoor` (one
aperture) and `wallA` (none) raises, and both faces end mutually
Surface-referenced. -/
theorem c9_setAdjacency_partial_mutation_witness :
    (setAdjacency faceWithDoor wallA 1).1.1.bc = surfaceBCFor wallA ∧
    (setAdjacency faceWithDoor wallA 1).1.2.bc = surfaceBCFor faceWithDoor ∧
    (∃ rest, surfaceBCFor wallA = .surface (wallA.identifier :: rest)) ∧
    (∃ rest, surfaceBCFor faceWithDoor = .surface (faceWithDoor.identifier :: rest)) :=
  c9_setAdjacency_partial_mutation faceWithDoor wallA 1
    "Number of apertures does not match." (by rfl)

theorem addAperture_ok_inv {f : Face} {a : SubFace} {f' : Face}
    (h : addAperture f a = .ok f') : f'.punched = none := by
  unfold addAperture at h
  cases hc : acceptableSubFaceCheck f with
  | error e => simp only [hc] at h; exact Except.noConfusion h
  | ok u =>
    simp only [hc] at h
    injection h with h2
    rw [← h2]

theorem addDoor_ok_inv {f : Face} {d : SubFace} {f' : Face}
    (h : addDoor f d = .ok f') : f'.punched = none := by
  unfold addDoor at h
  cases hc : acceptableSubFaceCheck f with
  | error e => simp only [hc] at h; exact Except.noConfusion h
  | ok u =>
    simp only [hc] at h
    injection h with h2
    rw [← h2]

theorem faceRemoveColinear_ok_inv {rc : Face3D → ℚ → Option Face3D} {f : Face}
    {tol : ℚ} {f' : Face} (h : faceRemoveColinear rc f tol = .ok f') :
    f'.punched = none := by
  unfold faceRemoveColinear at h
  cases hr : rc f.geometry tol with
  | none => simp only [hr] at h; exact Except.noConfusion h
  | some g =>
    simp only [hr] at h
    injection h with h2
    rw [← h2]

/-- C7: the cached punched geometry is never stale.  Every mutating Face
operation (adding or removing apertures/doors, the transforms move / rotate /
rotate_xy / scale / reflect, and remove_colinear_vertices) leaves the cache
empty, so the next `punched_geometry` read recomputes the boundary with holes
from the current geometry and the current sub-face set. -/
theorem c7_punched_geometry_not_stale (m : FaceMutation) (f f' : Face)
    (h : applyMutation m f = .ok f') :
    f'.punched = none ∧
    punchedGeometry f' =
      ({ f' with punched := some (computePunched f') }, computePunched f') := by
  have hp : f'.punched = none := by
    cases m with
    | addAp a => exact addAperture_ok_inv h
    | addDr d => exact addDoor_ok_inv h
    | removeAps => injection h with h2; rw [← h2]; rfl
    | removeDrs => injection h with h2; rw [← h2]; rfl
    | removeSubs => injection h with h2; rw [← h2]; rfl
    | transform t => injection h with h2; rw [← h2]; rfl
    | removeColinearVerts rc tol => exact faceRemoveColinear_ok_inv h
  refine ⟨hp, ?_⟩
  unfold punchedGeometry
  simp only [hp]

/-- Witness for C7: removing the sub-faces of `faceWithDoor` empties the
cache, and the subsequent read recomputes from the now-empty sub-face set. -/
theorem c7_punched_geometry_not_stale_witness :
    (removeSubFaces faceWithDoor).1.punched = none ∧
    punchedGeometry (removeSubFaces faceWithDoor).1 =
      ({ (removeSubFaces faceWithDoor).1 with
          punched := some (computePunched (removeSubFaces faceWithDoor).1) },
       computePunched (removeSubFaces faceWithDoor).1) :=
  c7_punched_geometry_not_stale .removeSubs faceWithDoor
    (removeSubFaces faceWithDoor).1 rfl

/-- C10: after `remove_sub_faces` the Face has no apertures and no doors and
the punched-geometry cache is reset, and the removed apertures have their
parent cleared - but the claim that every removed Door also has its parent
set to `None` fails: `remove_doors` iterates over `self._apertures` instead
of `self._doors` when clearing parents (`face.py` line 488, a slip against
the evident intent of the method and against the spec's ownership rule), so
the removed door of `faceWithDoor` still carries `some "wallD"`. -/
theorem c10_removeSubFaces_door_parent_bug :
    ((removeSubFaces faceWithDoor).1.apertures = [] ∧
     (removeSubFaces faceWithDoor).1.doors = [] ∧
     (removeSubFaces faceWithDoor).1.punched = none) ∧
    (removeSubFaces faceWithDoor).2.1.map SubFace.parent = [none] ∧
    (removeSubFaces faceWithDoor).2.2.map SubFace.parent = [some "wallD"] ∧
    ¬ (removeSubFaces faceWithDoor).2.2.map SubFace.parent = [none] := by
  refine ⟨⟨rfl, rfl, rfl⟩, rfl, rfl, ?_⟩
  intro hcontra
  simp [removeSubFaces, removeApertures, removeDoors, faceWithDoor, doorD, mkFace]
    at hcontra

theorem map_area_attached_fresh (F : Face) (nm : Nat → String) :
    ∀ (l : List (Nat × Face3D)),
    List.map (fun a => Face3D.area a.geometry)
      (List.map (attachedSubFace F) (List.map (fun p => freshAperture (nm p.1) p.2) l))
    = List.map (fun p => Face3D.area p.2) l := by
  intro l
  induction l with
  | nil => rfl
  | cons p ps ih =>
    simp only [List.map_cons, ih, List.cons.injEq]
    exact ⟨attached_area _ _, trivial⟩

theorem map_snd_area (l : List Face3D) :
    List.map (fun p : Nat × Face3D => Face3D.area p.2) l.enum
      = List.map Face3D.area l := by
  conv_rhs => rw [← List.enum_map_snd l, List.map_map]
  rfl

/-- C1: for a Face that can accept apertures, `apertures_by_ratio` raises
exactly when the ratio lies outside `[0, 1)`; with ratio `0` it leaves the
Face with no apertures and no doors; when the cleaned geometry is degenerate
it is silently skipped, leaving no sub-faces and raising nothing; and for a
ratio in `(0, 1)` it first removes all pre-existing apertures and doors and
then adds one fresh Aperture per geometry returned by the library's
ratio-subdivision of the (convex, planar, non-degenerate) face, so that
whenever the library result's combined area is within the tolerance of
ratio x face-area, the combined area of the Face's new apertures is too. -/
theorem c1_aperturesByRatio_contract (rc : Face3D → ℚ → Option Face3D)
    (genRect : Face3D → ℚ → ℚ → List Face3D) (gen : Face3D → ℚ → List Face3D)
    (f : Face) (r tol : ℚ) (rs : Bool)
    (hbc : f.bc = .outdoors) (hty : f.ftype ≠ .airBoundary) :
    (¬ (0 ≤ r ∧ r < 1) →
      ∃ e, aperturesByRatioM rc genRect gen f r tol rs = .error e) ∧
    (r = 0 →
      ∃ f', aperturesByRatioM rc genRect gen f r tol rs = .ok f' ∧
        f'.apertures = [] ∧ f'.doors = []) ∧
    (0 < r → r < 1 → rc f.geometry tol = none →
      ∃ f', aperturesByRatioM rc genRect gen f r tol rs = .ok f' ∧
        f'.apertures = [] ∧ f'.doors = []) ∧
    (∀ geo, 0 < r → r < 1 → rc f.geometry tol = some geo →
      ∃ f', aperturesByRatioM rc genRect gen f r tol rs = .ok f' ∧
        f'.doors = [] ∧
        f'.apertures.length = (if rs then genRect geo r tol else gen geo r).length ∧
        (f'.apertures.map (fun a => Face3D.area a.geometry)).sum =
          (((if rs then genRect geo r tol else gen geo r)).map Face3D.area).sum ∧
        (|(((if rs then genRect geo r tol else gen geo r)).map Face3D.area).sum -
            r * Face3D.area f.geometry| ≤ tol →
         |(f'.apertures.map (fun a => Face3D.area a.geometry)).sum -
            r * Face3D.area f.geometry| ≤ tol)) := by
  refine ⟨?_, ?_, ?_, ?_⟩
  · intro hr
    unfold aperturesByRatioM
    rw [if_pos hr]
    exact ⟨_, rfl⟩
  · intro hr0
    subst hr0
    unfold aperturesByRatioM
    rw [if_neg (not_not_intro ⟨le_refl 0, by norm_num⟩)]
    simp only [acceptable_ok hbc hty]
    exact ⟨_, rfl, rfl, rfl⟩
  · intro hr0 hr1 hdeg
    unfold aperturesByRatioM
    rw [if_neg (not_not_intro ⟨hr0.le, hr1⟩)]
    simp only [acceptable_ok hbc hty]
    rw [if_neg hr0.ne']
    have hg : rc ((removeSubFaces f).1).geometry tol = none := hdeg
    simp only [hg]
    exact ⟨_, rfl, rfl, rfl⟩
  · intro geo hr0 hr1 hgeo
    unfold aperturesByRatioM
    rw [if_neg (not_not_intro ⟨hr0.le, hr1⟩)]
    simp only [acceptable_ok hbc hty]
    rw [if_neg hr0.ne']
    have hg : rc ((removeSubFaces f).1).geometry tol = some geo := hgeo
    simp only [hg]
    have hadd := addApertures_ok
      (((if rs then genRect geo r tol else gen geo r)).enum.map
        (fun p => freshAperture
          (((removeSubFaces f).1).identifier ++ "_Glz" ++ toString p.1) p.2))
      ((removeSubFaces f).1) hbc hty
    rw [hadd]
    have hmapped : List.map (fun a => Face3D.area a.geometry)
        (List.map (attachedSubFace ((removeSubFaces f).1))
          (List.map (fun p : Nat × Face3D => freshAperture
              (((removeSubFaces f).1).identifier ++ "_Glz" ++ toString p.1) p.2)
            (((if rs then genRect geo r tol else gen geo r)).enum)))
        = ((if rs then genRect geo r tol else gen geo r)).map Face3D.area := by
      rw [map_area_attached_fresh ((removeSubFaces f).1)
            (fun i => ((removeSubFaces f).1).identifier ++ "_Glz" ++ toString i),
          map_snd_area]
    have hsum := congrArg List.sum hmapped
    simp only [removeSubFaces_fst] at hsum
    refine ⟨_, rfl, rfl, ?_, ?_, ?_⟩
    · simp [removeSubFaces_fst, List.enum_length]
    · simp only [removeSubFaces_fst, List.nil_append]
      exact hsum
    · intro hlib
      simp only [removeSubFaces_fst, List.nil_append]
      rw [hsum]
      exact hlib

/-- Witness for C1: a 2 x 2 wall with ratio 1/2, where the library subdivision
returns a single 2 x 1 rectangle of exactly half the face area. -/
theorem c1_aperturesByRatio_contract_witness :
    ∃ f', aperturesByRatioM (fun g _ => some g) (fun _ _ _ => [halfRect])
        (fun _ _ => [halfRect]) wallA (1/2) (1/100) true = .ok f' ∧
      f'.doors = [] ∧
      |(f'.apertures.map (fun a => Face3D.area a.geometry)).sum -
        (1/2) * Face3D.area wallA.geometry| ≤ 1/100 := by
  obtain ⟨f', h1, h2, h3, h4, h5⟩ :=
    (c1_aperturesByRatio_contract (fun g _ => some g) (fun _ _ _ => [halfRect])
      (fun _ _ => [halfRect]) wallA (1/2) (1/100) true rfl
      (fun h => FaceTypeT.noConfusion h)).2.2.2 wallA.geometry
      (by norm_num) (by norm_num) rfl
  refine ⟨f', h1, h2, h5 ?_⟩
  norm_num [halfRect, wallA, mkFace, sq2, Face3D.area, polyArea, shoelace, shoelace.go]

theorem rect_partition_all_rect (lib : GeoLib) (tol angT : ℚ) :
    ∀ (aps : List SubFace) (acc : List SubFace × List SubFace × List Face3D),
    (∀ ap ∈ aps, ∀ cg, lib.removeColinear ap.geometry tol = some cg →
      lib.isRect cg angT = true) →
    (aps.foldl (fun acc ap =>
      match lib.removeColinear ap.geometry tol with
      | none => acc
      | some cg =>
        if (Option.isNone (none : Option ℚ) || !false) then
          if lib.isRect cg angT then (acc.1 ++ [ap], acc.2.1, acc.2.2)
          else (acc.1, acc.2.1 ++ [ap], acc.2.2 ++ [cg])
        else (acc.1, acc.2.1 ++ [ap], acc.2.2 ++ [cg])) acc).2.2 = acc.2.2 := by
  intro aps
  induction aps with
  | nil => intro acc _; rfl
  | cons ap aps ih =>
    intro acc h
    rw [List.foldl_cons]
    cases hc : lib.removeColinear ap.geometry tol with
    | none =>
      simp only [hc]
      exact ih acc (fun x hx => h x (List.mem_cons_of_mem ap hx))
    | some cg =>
      simp only [hc, h ap (List.mem_cons_self ap aps) cg hc]
      rw [ih _ (fun x hx => h x (List.mem_cons_of_mem ap hx))]
      simp

/-- C6: rectangularization of an already-all-rectangular aperture set is a
no-op.  With the default merge settings (`max_separation = None`,
`merge_all = False`), when every non-degenerate cleaned aperture geometry is
already a rectangle within the angle tolerance, `rectangularize_apertures`
returns False and leaves the Face (its aperture set included) unchanged; in
particular a second application after any first application that produced
only rectangles reports no change. -/
theorem c6_rectangularize_idempotent (lib : GeoLib) (sd : Option ℚ)
    (tol angT : ℚ) (f : Face)
    (hrect : ∀ ap ∈ f.apertures, ∀ cg, lib.removeColinear ap.geometry tol = some cg →
      lib.isRect cg angT = true) :
    rectangularizeApertures lib sd none false tol angT f = .ok (f, false) := by
  unfold rectangularizeApertures
  by_cases hemp : f.apertures.isEmpty
  · rw [if_pos hemp]
  · rw [if_neg hemp]
    dsimp only
    rw [if_pos (by rw [rect_partition_all_rect lib tol angT f.apertures ([], [], []) hrect]; rfl)]

/-- Witness for C6: a wall whose single aperture is a rectangle is left
unchanged, with a False return. -/
theorem c6_rectangularize_idempotent_witness :
    rectangularizeApertures trivGeoLib none none false (1/100) 1 faceC6 =
      .ok (faceC6, false) :=
  c6_rectangularize_idempotent trivGeoLib none (1/100) 1 faceC6
    (fun _ _ _ _ => rfl)

/-- C5: the frame of `fix_invalid_sub_faces`.  On a Face with no sub-faces it
is a no-op (given that the library's overlap grouping and boundary joining
map an empty polygon list to an empty list); and in general, whatever the
trim-with-parent and union-overlaps passes produce, the sub-face set is
rebuilt only when the resulting polygon count differs from the original count
or the total area changed by more than the tolerance - otherwise the Face,
its original Aperture and Door objects included, is returned unchanged. -/
theorem c5_fixInvalid_frame (lib : FixLib) (trimQ unionQ : Bool)
    (offD tol : ℚ) (f : Face)
    (hgrp : lib.groupOverlap [] tol = [])
    (hjoin : lib.joinBoundary [] tol = [])
    (htol : 0 ≤ tol) :
    (f.apertures = [] → f.doors = [] →
      fixInvalidSubFaces lib trimQ unionQ offD tol f = .ok f) ∧
    (∀ cleanPolys : List Face3D,
      (if unionQ then unionPass lib tol
          (if trimQ then trimPass lib f.geometry offD tol
             ((collectSubFacePolys lib.removeColinear tol f).1.map (·.1))
           else (collectSubFacePolys lib.removeColinear tol f).1.map (·.1))
        else Except.ok
          (if trimQ then trimPass lib f.geometry offD tol
             ((collectSubFacePolys lib.removeColinear tol f).1.map (·.1))
           else (collectSubFacePolys lib.removeColinear tol f).1.map (·.1))) =
        .ok cleanPolys →
      cleanPolys.length =
        ((collectSubFacePolys lib.removeColinear tol f).1.map (·.1)).length →
      |(collectSubFacePolys lib.removeColinear tol f).2 -
        (cleanPolys.map Face3D.area).sum| ≤ tol →
      fixInvalidSubFaces lib trimQ unionQ offD tol f = .ok f) := by
  constructor
  · intro ha hd
    have hcol : collectSubFacePolys lib.removeColinear tol f = ([], 0) := by
      unfold collectSubFacePolys
      rw [ha, hd]
      rfl
    have htrim : trimPass lib f.geometry offD tol [] = [] := rfl
    have hunion : unionPass lib tol [] = .ok [] := by
      unfold unionPass
      rw [hgrp]
      simp only [List.all_nil, if_true]
      rw [hjoin]
    unfold fixInvalidSubFaces
    simp only [hcol, List.map_nil, htrim, ite_self, hunion]
    rw [if_neg]
    push_neg
    refine ⟨rfl, ?_⟩
    simpa using htol
  · intro cleanPolys hcp hlen harea
    unfold fixInvalidSubFaces
    simp only [hcp]
    rw [if_neg]
    push_neg
    exact ⟨hlen, harea⟩

/-- Witness for C5: a bare 2 x 2 wall with no sub-faces passes through
`fix_invalid_sub_faces` unchanged. -/
theorem c5_fixInvalid_frame_witness :
    fixInvalidSubFaces trivFixLib true true (1/20) (1/100) wallA = .ok wallA :=
  (c5_fixInvalid_frame trivFixLib true true (1/20) (1/100) wallA rfl rfl
    (by norm_num)).1 rfl rfl

theorem acceptable_ok_inv {f : Face} {u : Unit}
    (h : acceptableSubFaceCheck f = .ok u) :
    f.bc = .outdoors ∧ f.ftype ≠ .airBoundary := by
  unfold acceptableSubFaceCheck at h
  by_cases h1 : f.bc ≠ BoundaryCondition.outdoors
  · rw [if_pos h1] at h; exact Except.noConfusion h
  · rw [if_neg h1] at h
    by_cases h2 : f.ftype = FaceTypeT.airBoundary
    · rw [if_pos h2] at h; exact Except.noConfusion h
    · exact ⟨not_not.mp h1, h2⟩

theorem addAperture_preserves {f : Face} {a : SubFace} {f' : Face}
    (h : addAperture f a = .ok f') :
    f'.bc = f.bc ∧ f'.ftype = f.ftype ∧ f'.doors = f.doors ∧
      f.bc = .outdoors ∧ f.ftype ≠ .airBoundary := by
  unfold addAperture at h
  cases hc : acceptableSubFaceCheck f with
  | error e => simp only [hc] at h; exact Except.noConfusion h
  | ok u =>
    simp only [hc] at h
    injection h with h2
    obtain ⟨hbc, hty⟩ := acceptable_ok_inv hc
    rw [← h2]
    exact ⟨rfl, rfl, rfl, hbc, hty⟩

theorem addDoor_preserves {f : Face} {d : SubFace} {f' : Face}
    (h : addDoor f d = .ok f') :
    f'.bc = f.bc ∧ f'.ftype = f.ftype ∧ f'.apertures = f.apertures ∧
      f.bc = .outdoors ∧ f.ftype ≠ .airBoundary := by
  unfold addDoor at h
  cases hc : acceptableSubFaceCheck f with
  | error e => simp only [hc] at h; exact Except.noConfusion h
  | ok u =>
    simp only [hc] at h
    injection h with h2
    obtain ⟨hbc, hty⟩ := acceptable_ok_inv hc
    rw [← h2]
    exact ⟨rfl, rfl, rfl, hbc, hty⟩

theorem addApertures_preserves (aps : List SubFace) : ∀ (f f' : Face),
    addApertures f aps = .ok f' → f'.bc = f.bc ∧ f'.ftype = f.ftype := by
  induction aps with
  | nil =>
    intro f f' h
    rw [addApertures, List.foldlM_nil] at h
    injection h with h2
    rw [← h2]
    exact ⟨rfl, rfl⟩
  | cons a as ih =>
    intro f f' h
    rw [addApertures, List.foldlM_cons] at h
    cases ha : addAperture f a with
    | error e => rw [ha] at h; exact Except.noConfusion h
    | ok f1 =>
      rw [ha] at h
      obtain ⟨hbc1, hty1, _, _, _⟩ := addAperture_preserves ha
      obtain ⟨hbc2, hty2⟩ := ih f1 f' h
      exact ⟨hbc2.trans hbc1, hty2.trans hty1⟩

theorem addDoors_preserves (drs : List SubFace) : ∀ (f f' : Face),
    addDoors f drs = .ok f' → f'.bc = f.bc ∧ f'.ftype = f.ftype := by
  induction drs with
  | nil =>
    intro f f' h
    rw [addDoors, List.foldlM_nil] at h
    injection h with h2
    rw [← h2]
    exact ⟨rfl, rfl⟩
  | cons d ds ih =>
    intro f f' h
    rw [addDoors, List.foldlM_cons] at h
    cases ha : addDoor f d with
    | error e => rw [ha] at h; exact Except.noConfusion h
    | ok f1 =>
      rw [ha] at h
      obtain ⟨hbc1, hty1, _, _, _⟩ := addDoor_preserves ha
      obtain ⟨hbc2, hty2⟩ := ih f1 f' h
      exact ⟨hbc2.trans hbc1, hty2.trans hty1⟩

theorem aperturesByRatioM_bc {rc : Face3D → ℚ → Option Face3D}
    {genRect : Face3D → ℚ → ℚ → List Face3D} {gen : Face3D → ℚ → List Face3D}
    {f : Face} {r tol : ℚ} {rs : Bool} {f' : Face}
    (h : aperturesByRatioM rc genRect gen f r tol rs = .ok f') :
    f'.bc = .outdoors := by
  unfold aperturesByRatioM at h
  split at h
  · exact Except.noConfusion h
  · cases hc : acceptableSubFaceCheck f with
    | error e => rw [hc] at h; exact Except.noConfusion h
    | ok u =>
      simp only [hc] at h
      obtain ⟨hbc, _⟩ := acceptable_ok_inv hc
      split at h
      · injection h with h2; rw [← h2]; exact hbc
      · cases hg : rc ((removeSubFaces f).1).geometry tol with
        | none => rw [hg] at h; injection h with h2; rw [← h2]; exact hbc
        | some geo =>
          rw [hg] at h
          exact ((addApertures_preserves _ _ _ h).1).trans hbc

/-- C4: a Face with at least one Aperture or Door always has an Outdoors or
Surface boundary condition.  The invariant is preserved by every embedded
operation (setting the boundary condition, adding or removing sub-faces, the
geometric transforms, colinear-vertex removal, adjacency solving and
ratio-driven aperture generation); assigning any other boundary condition to
a Face with sub-faces raises; and adding an Aperture or Door to a Face whose
boundary condition forbids sub-faces (Ground or Adiabatic) raises. -/
theorem c4_subface_bc_invariant :
    (∀ (f : Face) (v : BoundaryCondition) (f' : Face),
      setBoundaryCondition f v = .ok f' →
      subFaceBCInvariant f → subFaceBCInvariant f') ∧
    (∀ (f : Face) (a : SubFace) (f' : Face),
      addAperture f a = .ok f' → subFaceBCInvariant f') ∧
    (∀ (f : Face) (d : SubFace) (f' : Face),
      addDoor f d = .ok f' → subFaceBCInvariant f') ∧
    (∀ f : Face, subFaceBCInvariant f → subFaceBCInvariant (removeApertures f).1) ∧
    (∀ f : Face, subFaceBCInvariant f → subFaceBCInvariant (removeDoors f).1) ∧
    (∀ f : Face, subFaceBCInvariant (removeSubFaces f).1) ∧
    (∀ (t : Face3D → Face3D) (f : Face),
      subFaceBCInvariant f → subFaceBCInvariant (transformFace t f)) ∧
    (∀ (rc : Face3D → ℚ → Option Face3D) (f : Face) (tol : ℚ) (f' : Face),
      faceRemoveColinear rc f tol = .ok f' →
      subFaceBCInvariant f → subFaceBCInvariant f') ∧
    (∀ (f other : Face) (tol : ℚ),
      subFaceBCInvariant (setAdjacency f other tol).1.1 ∧
      subFaceBCInvariant (setAdjacency f other tol).1.2) ∧
    (∀ (rc : Face3D → ℚ → Option Face3D) (genRect : Face3D → ℚ → ℚ → List Face3D)
       (gen : Face3D → ℚ → List Face3D) (f : Face) (r tol : ℚ) (rs : Bool) (f' : Face),
      aperturesByRatioM rc genRect gen f r tol rs = .ok f' → subFaceBCInvariant f') ∧
    (∀ (f : Face) (v : BoundaryCondition),
      (f.apertures ≠ [] ∨ f.doors ≠ []) → bcAllowsSubFaces v = false →
      ∃ e, setBoundaryCondition f v = .error e) ∧
    (∀ (f : Face) (s : SubFace),
      (f.bc = .ground ∨ f.bc = .adiabatic) →
      (∃ e, addAperture f s = .error e) ∧ (∃ e, addDoor f s = .error e)) := by
  refine ⟨?_, ?_, ?_, ?_, ?_, ?_, ?_, ?_, ?_, ?_, ?_, ?_⟩
  · intro f v f' h _
    unfold setBoundaryCondition at h
    by_cases h1 : ((!f.apertures.isEmpty || !f.doors.isEmpty) && !bcAllowsSubFaces v) = true
    · rw [if_pos h1] at h
      exact Except.noConfusion h
    · rw [if_neg h1] at h
      injection h with h2
      intro hne
      rw [← h2] at hne ⊢
      cases hb : bcAllowsSubFaces v
      · exfalso
        apply h1
        simp only [hb, Bool.not_false, Bool.and_true, Bool.or_eq_true,
          Bool.not_eq_true', List.isEmpty_eq_false]
        exact hne
      · rfl
  · intro f a f' h hne
    rw [(addAperture_preserves h).1, (addAperture_preserves h).2.2.2.1]
    rfl
  · intro f d f' h hne
    rw [(addDoor_preserves h).1, (addDoor_preserves h).2.2.2.1]
    rfl
  · intro f hinv hne
    rcases hne with h | h
    · exact absurd rfl h
    · exact hinv (Or.inr h)
  · intro f hinv hne
    rcases hne with h | h
    · refine hinv (Or.inl ?_)
      intro hcontra
      apply h
      show (removeDoors f).1.apertures = []
      unfold removeDoors
      dsimp only
      rw [hcontra]
      rfl
    · exact absurd rfl h
  · intro f hne
    rcases hne with h | h <;> exact absurd rfl h
  · intro t f hinv hne
    rcases hne with h | h
    · refine hinv (Or.inl ?_)
      intro hcontra
      apply h
      show (transformFace t f).apertures = []
      unfold transformFace
      dsimp only
      rw [hcontra]
      rfl
    · refine hinv (Or.inr ?_)
      intro hcontra
      apply h
      show (transformFace t f).doors = []
      unfold transformFace
      dsimp only
      rw [hcontra]
      rfl
  · intro rc f tol f' h hinv
    unfold faceRemoveColinear at h
    cases hr : rc f.geometry tol with
    | none => rw [hr] at h; exact Except.noConfusion h
    | some g =>
      simp only [hr] at h
      injection h with h2
      intro hne
      rw [← h2] at hne ⊢
      exact hinv hne
  · intro f other tol
    have hbc1 : (setAdjacency f other tol).1.1.bc = surfaceBCFor other := by
      unfold setAdjacency; dsimp only; split_ifs <;> rfl
    have hbc2 : (setAdjacency f other tol).1.2.bc = surfaceBCFor f := by
      unfold setAdjacency; dsimp only; split_ifs <;> rfl
    constructor
    · intro _
      rw [hbc1]
      unfold surfaceBCFor
      cases other.parentRoom <;> rfl
    · intro _
      rw [hbc2]
      unfold surfaceBCFor
      cases f.parentRoom <;> rfl
  · intro rc genRect gen f r tol rs f' h _
    rw [aperturesByRatioM_bc h]
    rfl
  · intro f v hne hallow
    unfold setBoundaryCondition
    rw [if_pos]
    · exact ⟨_, rfl⟩
    · simp only [hallow, Bool.not_false, Bool.and_true, Bool.or_eq_true,
        Bool.not_eq_true', List.isEmpty_eq_false]
      exact hne
  · intro f s hbc
    have hchk : ∃ e, acceptableSubFaceCheck f = .error e := by
      unfold acceptableSubFaceCheck
      rw [if_pos]
      · exact ⟨_, rfl⟩
      · rcases hbc with h | h <;> rw [h] <;> exact fun hc => BoundaryCondition.noConfusion hc
    obtain ⟨e, he⟩ := hchk
    constructor
    · unfold addAperture
      rw [he]
      exact ⟨_, rfl⟩
    · unfold addDoor
      rw [he]
      exact ⟨_, rfl⟩

/-- Witness for C4: assigning Ground to a face holding a door raises, adding
an aperture to a Ground face raises, and a successful aperture addition
yields a face satisfying the invariant. -/
theorem c4_subface_bc_invariant_witness :
    (∃ e, setBoundaryCondition faceWithDoor .ground = .error e) ∧
    (∃ e, addAperture (mkFace "gnd" sq2 .floor .ground) apA = .error e) ∧
    subFaceBCInvariant (removeSubFaces faceWithDoor).1 := by
  refine ⟨?_, ?_, ?_⟩
  · exact (c4_subface_bc_invariant.2.2.2.2.2.2.2.2.2.2.1) faceWithDoor .ground
      (Or.inr (by simp [faceWithDoor, mkFace])) rfl
  · exact ((c4_subface_bc_invariant.2.2.2.2.2.2.2.2.2.2.2) (mkFace "gnd" sq2 .floor .ground)
      apA (Or.inl rfl)).1
  · exact (c4_subface_bc_invariant.2.2.2.2.2.1) faceWithDoor

theorem bcFromDict_bcToDict (b : BoundaryCondition) :
    bcFromDict (bcToDict b) = some b := by
  cases b <;> rfl

theorem faceTypeByName_name (t : FaceTypeT) :
    faceTypeByName (faceTypeName t) = some t := by
  cases t <;> rfl

theorem subFace_roundtrip (a : SubFace) :
    subFaceFromDict (subFaceToDict a) = { a with parent := none } := by
  unfold subFaceFromDict subFaceToDict
  dsimp only
  rw [bcFromDict_bcToDict]
  rfl

theorem attach_roundtrip (F : Face) (l : List SubFace)
    (hpar : ∀ a ∈ l, a.parent = some F.identifier)
    (hdot : ∀ a ∈ l, 0 ≤ dot3 F.geometry.normal a.geometry.normal) :
    List.map (attachedSubFace F) (List.map (fun a => { a with parent := none }) l)
      = l := by
  induction l with
  | nil => rfl
  | cons a as ih =>
    simp only [List.map_cons, List.cons.injEq]
    refine ⟨?_, ih (fun x hx => hpar x (List.mem_cons_of_mem a hx))
      (fun x hx => hdot x (List.mem_cons_of_mem a hx))⟩
    show attachedSubFace F { a with parent := none } = a
    unfold attachedSubFace
    dsimp only
    rw [if_neg (not_lt.mpr (hdot a (List.mem_cons_self a as)))]
    rw [← hpar a (List.mem_cons_self a as)]

theorem addApertures_roundtrip (F : Face) (l : List SubFace)
    (hbcF : F.bc = .outdoors) (htyF : F.ftype ≠ .airBoundary)
    (hpar : ∀ a ∈ l, a.parent = some F.identifier)
    (hdot : ∀ a ∈ l, 0 ≤ dot3 F.geometry.normal a.geometry.normal) :
    addApertures F (List.map subFaceFromDict (List.map subFaceToDict l)) =
      .ok { F with apertures := F.apertures ++ l,
                   punched := if l.isEmpty then F.punched else none } := by
  have hmap : List.map subFaceFromDict (List.map subFaceToDict l)
      = List.map (fun a => { a with parent := none }) l := by
    rw [List.map_map]
    exact List.map_congr_left (fun a _ => subFace_roundtrip a)
  rw [hmap, addApertures_ok _ _ hbcF htyF]
  congr 1
  rw [attach_roundtrip F l hpar hdot]
  congr 1
  simp

theorem addDoors_roundtrip (F : Face) (l : List SubFace)
    (hbcF : F.bc = .outdoors) (htyF : F.ftype ≠ .airBoundary)
    (hpar : ∀ d ∈ l, d.parent = some F.identifier)
    (hdot : ∀ d ∈ l, 0 ≤ dot3 F.geometry.normal d.geometry.normal) :
    addDoors F (List.map subFaceFromDict (List.map subFaceToDict l)) =
      .ok { F with doors := F.doors ++ l,
                   punched := if l.isEmpty then F.punched else none } := by
  have hmap : List.map subFaceFromDict (List.map subFaceToDict l)
      = List.map (fun a => { a with parent := none }) l := by
    rw [List.map_map]
    exact List.map_congr_left (fun a _ => subFace_roundtrip a)
  rw [hmap, addDoors_ok _ _ hbcF htyF]
  congr 1
  rw [attach_roundtrip F l hpar hdot]
  congr 1
  simp

/-- C8: serialization round trip.  For every valid Face, `from_dict` applied
to `to_dict` succeeds and reproduces a Face with the same identifier, display
name, geometry, type, boundary condition, aperture list and door list, whose
`to_dict` is the identical dictionary. -/
theorem c8_to_from_dict_roundtrip (f : Face) (hv : validFace f) :
    ∃ f', faceFromDict (faceToDict f) = .ok f' ∧
      faceToDict f' = faceToDict f ∧
      f'.identifier = f.identifier ∧ f'.displayName = f.displayName ∧
      f'.geometry = f.geometry ∧ f'.ftype = f.ftype ∧ f'.bc = f.bc ∧
      f'.apertures = f.apertures ∧ f'.doors = f.doors := by
  obtain ⟨hsub, hap, hdr⟩ := hv
  unfold faceFromDict
  simp only [faceToDict, faceTypeByName_name, mkFace]
  by_cases hae : f.apertures = [] <;> by_cases hde : f.doors = []
  · simp only [hae, hde, List.isEmpty_nil, if_true, bcFromDict_bcToDict]
    unfold setBoundaryCondition
    simp only [List.isEmpty_nil, Bool.not_true, Bool.or_self, Bool.false_and,
      Bool.false_eq_true, if_false]
    refine ⟨_, rfl, ?_, rfl, rfl, rfl, rfl, rfl, rfl, rfl⟩
    simp [faceToDict, hae, hde]
  · simp only [hae, List.isEmpty_nil, if_true,
      if_neg (by simp [hde] : ¬ (f.doors.isEmpty = true)), bcFromDict_bcToDict]
    rw [addDoors_roundtrip
      { identifier := f.identifier, displayName := f.displayName,
        geometry := f.geometry, ftype := f.ftype, bc := .outdoors,
        apertures := [], doors := [], punched := none, parentRoom := none }
      f.doors rfl ((hsub (Or.inr hde)).2) (fun d hd => (hdr d hd).1)
      (fun d hd => (hdr d hd).2.2)]
    simp only [List.nil_append, List.isEmpty_nil]
    unfold setBoundaryCondition
    simp only [(hsub (Or.inr hde)).1, Bool.not_true, Bool.and_false,
      Bool.false_eq_true, if_false]
    refine ⟨_, rfl, ?_, rfl, rfl, rfl, rfl, rfl, rfl, rfl⟩
    simp [faceToDict, hae, hde]
  · simp only [hde, List.isEmpty_nil, if_true,
      if_neg (by simp [hae] : ¬ (f.apertures.isEmpty = true)), bcFromDict_bcToDict]
    rw [addApertures_roundtrip
      { identifier := f.identifier, displayName := f.displayName,
        geometry := f.geometry, ftype := f.ftype, bc := .outdoors,
        apertures := [], doors := [], punched := none, parentRoom := none }
      f.apertures rfl ((hsub (Or.inl hae)).2) (fun a ha => (hap a ha).1)
      (fun a ha => (hap a ha).2.2)]
    simp only [List.nil_append, List.isEmpty_nil]
    unfold setBoundaryCondition
    simp only [(hsub (Or.inl hae)).1, Bool.not_true, Bool.and_false,
      Bool.false_eq_true, if_false]
    refine ⟨_, rfl, ?_, rfl, rfl, rfl, rfl, rfl, rfl, rfl⟩
    simp [faceToDict, hae, hde]
  · simp only [if_neg (by simp [hae] : ¬ (f.apertures.isEmpty = true)),
      if_neg (by simp [hde] : ¬ (f.doors.isEmpty = true)), bcFromDict_bcToDict]
    rw [addApertures_roundtrip
      { identifier := f.identifier, displayName := f.displayName,
        geometry := f.geometry, ftype := f.ftype, bc := .outdoors,
        apertures := [], doors := [], punched := none, parentRoom := none }
      f.apertures rfl ((hsub (Or.inl hae)).2) (fun a ha => (hap a ha).1)
      (fun a ha => (hap a ha).2.2)]
    simp only [List.nil_append, ite_self]
    rw [addDoors_roundtrip
      { identifier := f.identifier, displayName := f.displayName,
        geometry := f.geometry, ftype := f.ftype, bc := .outdoors,
        apertures := f.apertures, doors := [], punched := none, parentRoom := none }
      f.doors rfl ((hsub (Or.inl hae)).2) (fun d hd => (hdr d hd).1)
      (fun d hd => (hdr d hd).2.2)]
    simp only [List.nil_append, ite_self]
    unfold setBoundaryCondition
    simp only [(hsub (Or.inl hae)).1, Bool.not_true, Bool.and_false,
      Bool.false_eq_true, if_false]
    refine ⟨_, rfl, ?_, rfl, rfl, rfl, rfl, rfl, rfl, rfl⟩
    simp [faceToDict, hae, hde]

/-- Witness for C8: the wall `faceC8` with one aperture round-trips. -/
theorem c8_to_from_dict_roundtrip_witness :
    ∃ f', faceFromDict (faceToDict faceC8) = .ok f' ∧
      faceToDict f' = faceToDict faceC8 ∧
      f'.identifier = faceC8.identifier ∧ f'.displayName = faceC8.displayName ∧
      f'.geometry = faceC8.geometry ∧ f'.ftype = faceC8.ftype ∧ f'.bc = faceC8.bc ∧
      f'.apertures = faceC8.apertures ∧ f'.doors = faceC8.doors := by
  apply c8_to_from_dict_roundtrip faceC8
  refine ⟨fun _ => ⟨rfl, fun h => FaceTypeT.noConfusion h⟩, ?_, ?_⟩
  · intro a ha
    simp only [faceC8, mkFace, List.mem_singleton] at ha
    subst ha
    refine ⟨rfl, rfl, ?_⟩
    norm_num [dot3, apE, sq8, halfRect, faceC8, mkFace]
  · intro d hd
    simp [faceC8, mkFace] at hd

theorem firstCenterMatch_eq_find (tol : ℚ) (g : Face3D) :
    ∀ (olds : List SubFace),
    firstCenterMatch tol g olds =
      olds.find? (fun o => ptEquiv (center2 o.geometry) (center2 g) tol) := by
  intro olds
  induction olds with
  | nil => rfl
  | cons o os ih =>
    rw [firstCenterMatch, List.find?_cons]
    cases hp : ptEquiv (center2 o.geometry) (center2 g) tol
    · rw [if_neg (by simp [hp])]
      exact ih
    · rw [if_pos (by simp [hp])]

set_option maxHeartbeats 2000000 in
/-- C3 counterexample: the claim's matching rule (original centroid inside
the regenerated geometry's bounding rectangle, first match wins) disagrees
with the code on `faceC3`.  The centroid of the original Aperture "apSmall"
lies inside the bounding rectangle of the regenerated geometry derived from
"apBig" (and "apSmall" is the first such original), so the claim's rule
labels that geometry "apSmall" (in fact it labels both regenerated
geometries "apSmall"); but the code matches by center-point equivalence, the
centers are 1 apart with tolerance 1/100, so the code labels it "apBig" -
and the Face that `rectangularize_apertures` actually produces carries the
identifier "apBig", not "apSmall". -/
theorem c3_centroid_matching_counterexample :
    (rectangularizeApertures libC3 none none false (1/100) 1 faceC3).map
        (fun p => (p.1.apertures.map SubFace.identifier, p.2))
      = .ok (["apBig"], true) ∧
    (matchRegenerated "wallC3" (1/100) faceC3.apertures
        [boundRectOf triS, boundRectOf shapeL]).map SubFace.identifier
      = ["apSmall", "apBig"] ∧
    (specMatchRegenerated "wallC3" faceC3.apertures
        [boundRectOf triS, boundRectOf shapeL]).map SubFace.identifier
      = ["apSmall", "apSmall"] ∧
    (specMatchRegenerated "wallC3" faceC3.apertures
        [boundRectOf triS, boundRectOf shapeL]).map SubFace.identifier
      ≠ (matchRegenerated "wallC3" (1/100) faceC3.apertures
        [boundRectOf triS, boundRectOf shapeL]).map SubFace.identifier ∧
    insideBoundRect (boundRectOf (boundRectOf shapeL)) (centroid2 triS) = true ∧
    ptEquiv (center2 triS) (center2 (boundRectOf shapeL)) (1/100) = false := by
  refine ⟨?_, ?_, ?_, ?_, ?_, ?_⟩
  · norm_num [rectangularizeApertures, libC3, faceC3, mkFace, apSmall, apBig, triS,
      shapeL, sq8, boundRectOf, bboxMin, bboxMax, center2, ptEquiv, firstCenterMatch,
      matchRegenerated, freshAperture, removeOverlappingSubFaces,
      groupSubFacesByOverlap, sortByAreaDesc, insertDesc, appendAt, bboxOverlap,
      Face3D.area, polyArea, shoelace, shoelace.go, removeApertures, addApertures,
      addAperture, acceptableSubFaceCheck, dot3, Except.map, List.enum, List.enumFrom,
      List.filterMap_cons, List.head?, List.foldlM_cons, List.foldlM_nil]
    rfl
  · norm_num [matchRegenerated, faceC3, mkFace, apSmall, apBig, triS, shapeL, sq8,
      boundRectOf, bboxMin, bboxMax, center2, ptEquiv, firstCenterMatch, freshAperture,
      List.enum, List.enumFrom]
  · norm_num [specMatchRegenerated, faceC3, mkFace, apSmall, apBig, triS, shapeL, sq8,
      boundRectOf, bboxMin, bboxMax, center2, centroid2, centroid2.momX,
      centroid2.momY, centroid2.goX, centroid2.goY, shoelace, shoelace.go,
      insideBoundRect, freshAperture, List.enum, List.enumFrom, List.find?]
  · intro hcontra
    have h2 : (matchRegenerated "wallC3" (1/100) faceC3.apertures
        [boundRectOf triS, boundRectOf shapeL]).map SubFace.identifier
      = ["apSmall", "apBig"] := by
      norm_num [matchRegenerated, faceC3, mkFace, apSmall, apBig, triS, shapeL, sq8,
        boundRectOf, bboxMin, bboxMax, center2, ptEquiv, firstCenterMatch,
        freshAperture, List.enum, List.enumFrom]
    have h3 : (specMatchRegenerated "wallC3" faceC3.apertures
        [boundRectOf triS, boundRectOf shapeL]).map SubFace.identifier
      = ["apSmall", "apSmall"] := by
      norm_num [specMatchRegenerated, faceC3, mkFace, apSmall, apBig, triS, shapeL,
        sq8, boundRectOf, bboxMin, bboxMax, center2, centroid2, centroid2.momX,
        centroid2.momY, centroid2.goX, centroid2.goY, shoelace, shoelace.go,
        insideBoundRect, freshAperture, List.enum, List.enumFrom, List.find?]
    rw [h2, h3] at hcontra
    simp at hcontra
  · norm_num [insideBoundRect, boundRectOf, bboxMin, bboxMax, centroid2,
      centroid2.momX, centroid2.momY, centroid2.goX, centroid2.goY, shoelace,
      shoelace.go, center2, triS, shapeL]
  · norm_num [ptEquiv, center2, bboxMin, bboxMax, triS, shapeL, boundRectOf]

/-- C3 amended: whenever `rectangularize_apertures` regenerates aperture
geometry, its Aperture-creation step matches each regenerated geometry to the
FIRST original non-rectangular Aperture whose CENTER POINT is equivalent to
the new geometry's center within the tolerance (not by centroid-in-bounding-
rectangle); a matched geometry keeps that original's identifier and operable
flag, and a geometry matching no original becomes a new Aperture with the
synthesized identifier `<parentID>_RG<index>`. -/
theorem c3_matchRegenerated_center_equivalence (parentId : String) (tol : ℚ)
    (olds : List SubFace) (geos : List Face3D) :
    (matchRegenerated parentId tol olds geos).length = geos.length ∧
    (∀ (i : Nat) (g : Face3D), geos.get? i = some g →
      ∃ a, (matchRegenerated parentId tol olds geos).get? i = some a ∧
        a.geometry = g ∧
        (∀ o, olds.find? (fun o' => ptEquiv (center2 o'.geometry) (center2 g) tol)
            = some o →
          a.identifier = o.identifier ∧ a.isOperable = o.isOperable) ∧
        (olds.find? (fun o' => ptEquiv (center2 o'.geometry) (center2 g) tol)
            = none →
          a.identifier = parentId ++ "_RG" ++ toString i)) := by
  constructor
  · unfold matchRegenerated
    rw [List.length_map, List.enum_length]
  · intro i g hg
    unfold matchRegenerated
    rw [List.get?_map, List.get?_enum, hg]
    dsimp only [Option.map_some']
    rw [firstCenterMatch_eq_find]
    cases hf : olds.find? (fun o' => ptEquiv (center2 o'.geometry) (center2 g) tol) with
    | none =>
      refine ⟨_, rfl, rfl, ?_, fun _ => rfl⟩
      intro o ho
      exact Option.noConfusion ho
    | some o =>
      refine ⟨_, rfl, rfl, ?_, ?_⟩
      · intro o' ho'
        injection ho' with h2
        rw [← h2]
        exact ⟨rfl, rfl⟩
      · intro hcontra
        exact Option.noConfusion hcontra

/-- Witness for the amended C3: the regenerated bounding rectangle of `triS`
is matched back to "apSmall" by center equivalence. -/
theorem c3_matchRegenerated_center_equivalence_witness :
    ∃ a, (matchRegenerated "wallC3" (1/100) [apSmall] [boundRectOf triS]).get? 0
        = some a ∧
      a.geometry = boundRectOf triS ∧
      (∀ o, ([apSmall].find? (fun o' => ptEquiv (center2 o'.geometry)
          (center2 (boundRectOf triS)) (1/100))) = some o →
        a.identifier = o.identifier ∧ a.isOperable = o.isOperable) ∧
      (([apSmall].find? (fun o' => ptEquiv (center2 o'.geometry)
          (center2 (boundRectOf triS)) (1/100))) = none →
        a.identifier = "wallC3" ++ "_RG" ++ toString 0) :=
  (c3_matchRegenerated_center_equivalence "wallC3" (1/100) [apSmall]
    [boundRectOf triS]).2 0 (boundRectOf triS) rfl
